import Mathlib

/-!
# EduQuest: session management, access control and content synchronization

A shallow embedding of the access guard (`src/components/ProtectedRoute.jsx`),
the static route table (`src/Routes.jsx`), the session manager
(`src/context/AuthContext.jsx`), the logout handler of the header
(`src/components/ui/Header.jsx`) and the content library
(`src/pages/content-management/components/ContentLibrary.jsx`), followed by
the properties proved about them.

Modelling conventions
* A JavaScript value that can be stored in the `role` field of a profile
  document is a `JSVal`.  On these values `===` and the `SameValueZero`
  comparison of `Array.prototype.includes` both coincide with structural
  equality (numbers are integers here, so `NaN` does not occur).
* `user` is `null` or a Firebase user object; an object is always truthy, so
  `!user` is `user = none`.
* React state updates issued in one synchronous run of a callback are
  committed together (automatic batching), so each such run is one transition;
  the effects of the render it causes belong to the same transition.
* `String.prototype.toLowerCase` is a parameter of the filter; strings are
  compared as sequences of characters.
* A document of the store may lack any field; a callback that throws returns
  `.error` and leaves the state cells as they were.
-/

namespace EduQuest

/-! ## Values -/

/-- JavaScript values that may appear as a role. -/
inductive JSVal where
  | undefined
  | null
  | bool (b : Bool)
  | num (n : Int)
  | str (s : String)
  deriving DecidableEq, Repr

/-- A Firebase user object, identified by its `uid`. -/
structure FirebaseUser where
  uid : String
  deriving DecidableEq, Repr

/-- The part of the context value read by consumers of `useAuth()`:
`user`, `userRole` and `loading`. -/
structure Session where
  user : Option FirebaseUser
  userRole : JSVal
  loading : Bool
  deriving DecidableEq, Repr

/-! ## Access guard (`ProtectedRoute.jsx`) -/

/-- Props of `ProtectedRoute` other than `children`, with the defaults of the
destructuring pattern `{ children, requireAuth = true, allowedRoles = [] }`. -/
structure RouteRequirement where
  requireAuth : Bool := true
  allowedRoles : List JSVal := []
  deriving DecidableEq, Repr

/-- What `ProtectedRoute` returns: the loading spinner, a `<Navigate>` element,
or its `children`. -/
inductive Decision where
  | wait
  | navigate (target : String) (replace : Bool)
  | render
  deriving DecidableEq, Repr

/-- `Array.prototype.includes` on an array of role values. -/
def includes (xs : List JSVal) (v : JSVal) : Bool :=
  xs.any (fun x => decide (x = v))

/-- `ProtectedRoute`, lines 5-45. -/
def ProtectedRoute (props : RouteRequirement) (auth : Session) : Decision :=
  if auth.loading then
    .wait
  else if props.requireAuth && auth.user.isNone then
    .navigate "/login" true
  else if !props.requireAuth && auth.user.isSome then
    if auth.userRole = .str "teacher" then
      .navigate "/teacher-dashboard" true
    else
      .navigate "/student-dashboard" true
  else if props.requireAuth && decide (props.allowedRoles.length > 0)
      && !includes props.allowedRoles auth.userRole then
    if auth.userRole = .str "teacher" then
      .navigate "/teacher-dashboard" true
    else
      .navigate "/student-dashboard" true
  else
    .render

/-! ### The decision table of the specification -/

/-- Actions of the decision function of the specification, with the
distinguished `Wait` state. -/
inductive Action where
  | Wait
  | Render
  | RedirectToLogin
  | RedirectToRoleHome
  deriving DecidableEq, Repr

/-- Role-home of the specification: `teacher-dashboard` if the role is teacher,
otherwise `student-dashboard`. -/
def roleHome (role : JSVal) : String :=
  if role = .str "teacher" then "/teacher-dashboard" else "/student-dashboard"

/-- The five ordered rules of the specification, written from its words
(section 4.2), to be compared with `ProtectedRoute`. -/
def decideSpec (session : Session) (requirement : RouteRequirement) : Action :=
  if session.loading = true then
    .Wait
  else if requirement.requireAuth = true ∧ session.user = none then
    .RedirectToLogin
  else if requirement.requireAuth = false ∧ session.user ≠ none then
    .RedirectToRoleHome
  else if requirement.requireAuth = true ∧ requirement.allowedRoles ≠ []
      ∧ session.userRole ∉ requirement.allowedRoles then
    .RedirectToRoleHome
  else
    .Render

/-- The directive sent to the router for an action of the specification:
`Render`, `navigate(/login, replace=true)` or `navigate(roleHome, replace=true)`. -/
def directive (session : Session) : Action → Decision
  | .Wait => .wait
  | .Render => .render
  | .RedirectToLogin => .navigate "/login" true
  | .RedirectToRoleHome => .navigate (roleHome session.userRole) true

/-! ## Route table (`Routes.jsx`) -/

/-- One `<Route>` of the table: its path, the props of the `ProtectedRoute`
wrapping its page (`none` when the page is not wrapped), and the page. -/
structure RouteEntry where
  path : String
  guard : Option RouteRequirement
  page : String
  deriving DecidableEq, Repr

/-- The routes of `Routes.jsx`, lines 23-101, in source order. -/
def Routes : List RouteEntry :=
  [ { path := "/login", guard := some { requireAuth := false }, page := "Login" },
    { path := "/", guard := some { requireAuth := false }, page := "Login" },
    { path := "/teacher-dashboard",
      guard := some { requireAuth := true, allowedRoles := [.str "teacher"] },
      page := "TeacherDashboard" },
    { path := "/content-management",
      guard := some { requireAuth := true, allowedRoles := [.str "teacher"] },
      page := "ContentManagement" },
    { path := "/student-dashboard",
      guard := some { requireAuth := true, allowedRoles := [.str "student"] },
      page := "StudentDashboard" },
    { path := "/progress-tracking",
      guard := some { requireAuth := true, allowedRoles := [.str "student", .str "teacher"] },
      page := "ProgressTracking" },
    { path := "/quiz-assessment",
      guard := some { requireAuth := true, allowedRoles := [.str "student", .str "teacher"] },
      page := "QuizAssessment" },
    { path := "/lesson-content",
      guard := some { requireAuth := true, allowedRoles := [.str "student", .str "teacher"] },
      page := "LessonContent" },
    { path := "*", guard := none, page := "NotFound" } ]

/-- The route entry declared for a path. -/
def routeFor (path : String) : Option RouteEntry :=
  Routes.find? (fun r => r.path == path)

/-- The outcome of visiting a declared path with a session: the decision of the
guard wrapping the page, or `render` when the page is not wrapped. -/
def visit (path : String) (auth : Session) : Option Decision :=
  (routeFor path).map fun r =>
    match r.guard with
    | some props => ProtectedRoute props auth
    | none => .render

/-! ## Session manager (`AuthContext.jsx`) -/

/-- The three state cells of `AuthProvider` (lines 17-19) together with the
messages written to the console. -/
structure AuthProviderState where
  user : Option FirebaseUser
  userRole : JSVal
  loading : Bool
  console : List String
  deriving DecidableEq, Repr

/-- The state at mount: `useState(null)`, `useState(null)`, `useState(true)`. -/
def AuthProviderState.initial : AuthProviderState :=
  { user := none, userRole := .null, loading := true, console := [] }

/-- The `user`, `userRole` and `loading` fields of the context value
(lines 61-65), which `ProtectedRoute` reads through `useAuth()`. -/
def AuthProviderState.value (st : AuthProviderState) : Session :=
  { user := st.user, userRole := st.userRole, loading := st.loading }

/-- State setter `setUser`. -/
def setUser (v : Option FirebaseUser) (st : AuthProviderState) : AuthProviderState :=
  { st with user := v }

/-- State setter `setUserRole`. -/
def setUserRole (v : JSVal) (st : AuthProviderState) : AuthProviderState :=
  { st with userRole := v }

/-- State setter `setLoading`. -/
def setLoading (v : Bool) (st : AuthProviderState) : AuthProviderState :=
  { st with loading := v }

/-- The call `console.error(label, error)`. -/
def consoleError (label error : String) (st : AuthProviderState) : AuthProviderState :=
  { st with console := st.console ++ [label ++ " " ++ error] }

/-- The object returned by `userDoc.data()`; a document without a `role` field
has `role = undefined`. -/
structure UserData where
  role : JSVal
  deriving DecidableEq, Repr

/-- How the promise of `getDoc` settles: it resolves with a snapshot, whose
data is `none` when `userDoc.exists()` is false, or it rejects. -/
inductive GetDocOutcome where
  | resolved (userDoc : Option UserData)
  | rejected (error : String)
  deriving DecidableEq, Repr

/-- How the promise of `signOut(auth)` settles. -/
inductive SignOutOutcome where
  | resolved
  | rejected (error : String)
  deriving DecidableEq, Repr

/-- The `try` block of the callback once `await getDoc(...)` has settled
(lines 25-35); a rejected lookup throws. -/
def fetchUserData (firebaseUser : FirebaseUser) (o : GetDocOutcome)
    (st : AuthProviderState) : Except String AuthProviderState :=
  match o with
  | .rejected error => .error error
  | .resolved userDoc =>
    match userDoc with
    | some userData => .ok (setUserRole userData.role (setUser (some firebaseUser) st))
    | none => .ok (setUserRole .null (setUser none st))

/-- The callback for a non-null `firebaseUser` from the point where the lookup
settles to its end (lines 24-45): the `try` block, the `catch` block and
`setLoading(false)`.  The result is the settlement of the promise of the
callback: `.ok` when it resolves, `.error` when an error escapes it. -/
def resumeCallback (firebaseUser : FirebaseUser) (o : GetDocOutcome)
    (st : AuthProviderState) : Except String AuthProviderState :=
  let st1 :=
    match fetchUserData firebaseUser o st with
    | .ok st1 => st1
    | .error error =>
      setUserRole .null (setUser none (consoleError "Error fetching user data:" error st))
  .ok (setLoading false st1)

/-- The callback for a null `firebaseUser` (lines 41-45), which runs to its end
without suspending. -/
def signedOutCallback (st : AuthProviderState) : AuthProviderState :=
  setLoading false (setUserRole .null (setUser none st))

/-- One complete run of the callback passed to `onAuthStateChanged`
(lines 22-46), the lookup being answered by `getDoc` (from uid to outcome). -/
def onAuthStateChanged (getDoc : String → GetDocOutcome)
    (firebaseUser : Option FirebaseUser) (st : AuthProviderState) :
    Except String AuthProviderState :=
  match firebaseUser with
  | some u => resumeCallback u (getDoc u.uid) st
  | none => .ok (signedOutCallback st)

/-- The `try` block of `logout` once `await signOut(auth)` has settled
(lines 52-55). -/
def signOutAndClear (o : SignOutOutcome) (st : AuthProviderState) :
    Except String AuthProviderState :=
  match o with
  | .rejected error => .error error
  | .resolved => .ok (setUserRole .null (setUser none st))

/-- The function `logout` (lines 51-59); the result is the settlement of the
promise it returns. -/
def logout (o : SignOutOutcome) (st : AuthProviderState) :
    Except String AuthProviderState :=
  match signOutAndClear o st with
  | .ok st1 => .ok st1
  | .error error => .ok (consoleError "Error signing out:" error st)

/-! ### The session manager as a transition system -/

/-- The provider together with the asynchronous work in flight: the callbacks
suspended at `await getDoc` (each with the `firebaseUser` it captured, newest
first) and the number of `logout` calls suspended at `await signOut`. -/
structure Machine where
  st : AuthProviderState
  lookups : List FirebaseUser
  signOuts : Nat
  deriving DecidableEq, Repr

/-- The machine at mount. -/
def Machine.initial : Machine :=
  { st := AuthProviderState.initial, lookups := [], signOuts := 0 }

/-- What can happen to the provider: the credential store reports a session
change, the lookup of the suspended callback at position `k` settles, `logout`
is called, a pending sign-out settles. -/
inductive Event where
  | authStateChanged (firebaseUser : Option FirebaseUser)
  | getDocSettled (k : Nat) (o : GetDocOutcome)
  | logoutCalled
  | signOutSettled (o : SignOutOutcome)
  deriving DecidableEq, Repr

/-- One transition; `none` when the event cannot occur in the state. -/
def step (m : Machine) : Event → Option Machine
  | .authStateChanged (some u) => some { m with lookups := u :: m.lookups }
  | .authStateChanged none => some { m with st := signedOutCallback m.st }
  | .getDocSettled k o =>
    match m.lookups[k]? with
    | none => none
    | some u =>
      match resumeCallback u o m.st with
      | .ok st1 => some { m with st := st1, lookups := m.lookups.eraseIdx k }
      | .error _ => some { m with lookups := m.lookups.eraseIdx k }
  | .logoutCalled => some { m with signOuts := m.signOuts + 1 }
  | .signOutSettled o =>
    if m.signOuts = 0 then none
    else
      match logout o m.st with
      | .ok st1 => some { m with st := st1, signOuts := m.signOuts - 1 }
      | .error _ => some { m with signOuts := m.signOuts - 1 }

/-- The machine after a sequence of events, `none` if one of them cannot occur. -/
def run (m : Machine) : List Event → Option Machine
  | [] => some m
  | e :: es => (step m e).bind fun m1 => run m1 es

/-! ## Header (`components/ui/Header.jsx`) -/

namespace Header

/-- The state of `Header` touched by `handleLogout`: the two menu flags, the
calls made to `navigate`, and the messages written to the console. -/
structure HeaderState where
  isMenuOpen : Bool
  isUserMenuOpen : Bool
  navigations : List String
  console : List String
  deriving DecidableEq, Repr

/-- The call `navigate(path)`. -/
def navigate (path : String) (h : HeaderState) : HeaderState :=
  { h with navigations := h.navigations ++ [path] }

/-- State setter `setIsUserMenuOpen`. -/
def setIsUserMenuOpen (v : Bool) (h : HeaderState) : HeaderState :=
  { h with isUserMenuOpen := v }

/-- State setter `setIsMenuOpen`. -/
def setIsMenuOpen (v : Bool) (h : HeaderState) : HeaderState :=
  { h with isMenuOpen := v }

/-- The call `console.error(label, error)` made by the header. -/
def consoleError (label error : String) (h : HeaderState) : HeaderState :=
  { h with console := h.console ++ [label ++ " " ++ error] }

/-- The function `handleLogout` (lines 76-85), run to its end with the
sign-out settling as `o`: the `try` block awaits `logout()` and then
navigates to `/login` and closes the menus; the `catch` block logs. -/
def handleLogout (o : SignOutOutcome) (st : AuthProviderState) (h : HeaderState) :
    Except String (AuthProviderState × HeaderState) :=
  match logout o st with
  | .ok st1 => .ok (st1, setIsMenuOpen false (setIsUserMenuOpen false (navigate "/login" h)))
  | .error error => .ok (st, consoleError "Error logging out:" error h)

end Header

/-! ## Content library (`pages/content-management/components/ContentLibrary.jsx`) -/

namespace ContentLibrary

/-- An entry of `contentItems`.  `title`, `subject`, `grade` and `language` of
an entry built from a remote document are copied from the document and are
`none` (JavaScript `undefined`) when the document has no such field. -/
structure ContentItem where
  id : String
  title : Option String
  type : String
  subject : Option String
  grade : Option String
  language : Option String
  thumbnail : String
  fileSize : String
  uploadDate : String
  views : Nat
  downloads : Nat
  status : String
  deriving DecidableEq, Repr

/-- The constant `hardcodedContent`, lines 21-64. -/
def hardcodedContent : List ContentItem :=
  [ { id := "hardcoded-1",
      title := some "Introduction to Mathematics",
      type := "lesson",
      subject := some "Mathematics",
      grade := some "Class 5",
      language := some "English",
      thumbnail := "https://images.unsplash.com/photo-1635070041078-e363dbe005cb?w=300&h=200&fit=crop",
      fileSize := "2.5 MB",
      uploadDate := "2025-01-08",
      views := 245,
      downloads := 89,
      status := "published" },
    { id := "hardcoded-2",
      title := some "गणित की मूल बातें",
      type := "video",
      subject := some "Mathematics",
      grade := some "Class 5",
      language := some "Hindi",
      thumbnail := "https://images.pexels.com/photos/3862130/pexels-photo-3862130.jpeg?w=300&h=200&fit=crop",
      fileSize := "45.2 MB",
      uploadDate := "2025-01-07",
      views := 189,
      downloads := 67,
      status := "published" },
    { id := "hardcoded-3",
      title := some "Science Experiments",
      type := "lesson",
      subject := some "Science",
      grade := some "Class 6",
      language := some "English",
      thumbnail := "https://images.pixabay.com/photo/2017/09/07/08/54/money-2724241_1280.jpg?w=300&h=200&fit=crop",
      fileSize := "3.8 MB",
      uploadDate := "2025-01-06",
      views := 156,
      downloads := 45,
      status := "draft" } ]

/-- The `questions` field of `doc.data()`: absent (`undefined` or `null`), an
array, or any other value, given with its `length` property when it has one. -/
inductive Questions where
  | absent
  | array (items : List JSVal)
  | other (length : Option Nat)
  deriving DecidableEq, Repr

/-- The `createdAt` field of `doc.data()`: absent (`undefined` or `null`), a
store timestamp, given by the ISO string of its `toDate()`, or any other
value, which has no `toDate` method. -/
inductive CreatedAt where
  | absent
  | timestamp (iso : String)
  | other
  deriving DecidableEq, Repr

/-- A document of a query snapshot: its `id` and the fields of `doc.data()`
that the snapshot callback reads.  `title`, `subject`, `grade` and `language`
are `none` (JavaScript `undefined`) when the document has no such field. -/
structure QuizDoc where
  id : String
  title : Option String
  subject : Option String
  grade : Option String
  language : Option String
  questions : Questions
  createdAt : CreatedAt
  deriving DecidableEq, Repr

/-- The template string of line 113, with `quizData.questions.length` read
unguarded: an absent `questions` throws a `TypeError`. -/
def fileSizeOf (questions : Questions) : Except String String :=
  match questions with
  | .absent => .error "TypeError: cannot read property length of undefined"
  | .array items => .ok (toString items.length ++ " Qs")
  | .other (some n) => .ok (toString n ++ " Qs")
  | .other none => .ok "undefined Qs"

/-- The expression of line 114,
`quizData.createdAt?.toDate()?.toISOString() || new Date().toISOString()`:
`?.` guards an absent `createdAt` only, so a value without `toDate` throws a
`TypeError`; `now` is the value of `new Date().toISOString()`. -/
def uploadDateOf (now : String) (createdAt : CreatedAt) : Except String String :=
  match createdAt with
  | .absent => .ok now
  | .timestamp iso => .ok (if iso = "" then now else iso)
  | .other => .error "TypeError: quizData.createdAt.toDate is not a function"

/-- The object built for one document (lines 104-118), its properties being
evaluated in source order; `.error` when building it throws. -/
def toContentItem (now : String) (doc : QuizDoc) : Except String ContentItem :=
  match fileSizeOf doc.questions with
  | .error e => .error e
  | .ok fileSize =>
    match uploadDateOf now doc.createdAt with
    | .error e => .error e
    | .ok uploadDate =>
      .ok { id := doc.id,
            title := doc.title,
            type := "quiz",
            subject := doc.subject,
            grade := doc.grade,
            language := doc.language,
            thumbnail := "https://images.unsplash.com/photo-1481627834876-b7833e8f5570?w=300&h=200&fit=crop",
            fileSize := fileSize,
            uploadDate := uploadDate,
            views := 0,
            downloads := 0,
            status := "published" }

/-- The loop `querySnapshot.forEach` of lines 102-119, which fills
`fetchedQuizzes` in snapshot order and stops at the first document that
throws. -/
def fetchQuizzes (now : String) : List QuizDoc → Except String (List ContentItem)
  | [] => .ok []
  | doc :: rest =>
    match toContentItem now doc with
    | .error e => .error e
    | .ok item =>
      match fetchQuizzes now rest with
      | .error e => .error e
      | .ok items => .ok (item :: items)

/-- A document that the snapshot callback can read: `questions` is not absent
and `createdAt` is absent or a timestamp. -/
def QuizDoc.readable (doc : QuizDoc) : Bool :=
  decide (doc.questions ≠ .absent) && decide (doc.createdAt ≠ .other)

/-- The state cells of `ContentLibrary` (lines 15-19) that the synchronizer and
the filter use, together with the messages written to the console. -/
structure State where
  selectedCategory : String
  searchQuery : String
  contentItems : List ContentItem
  isAuthReady : Bool
  userId : Option String
  console : List String
  deriving DecidableEq, Repr

/-- The state at mount: `'all'`, `''`, `[]`, `false`, `null`. -/
def State.initial : State :=
  { selectedCategory := "all", searchQuery := "", contentItems := [],
    isAuthReady := false, userId := none, console := [] }

/-- State setter `setContentItems`. -/
def setContentItems (v : List ContentItem) (st : State) : State :=
  { st with contentItems := v }

/-- State setter `setIsAuthReady`. -/
def setIsAuthReady (v : Bool) (st : State) : State :=
  { st with isAuthReady := v }

/-- State setter `setUserId`. -/
def setUserId (v : Option String) (st : State) : State :=
  { st with userId := v }

/-- The call `console.error(label, error)` made by the library. -/
def consoleError (label error : String) (st : State) : State :=
  { st with console := st.console ++ [label ++ " " ++ error] }

/-- The snapshot callback passed to `onSnapshot` (lines 101-121); `.error` when
an exception escapes it, which happens before `setContentItems` is reached. -/
def onSnapshotNext (now : String) (querySnapshot : List QuizDoc) (st : State) :
    Except String State :=
  match fetchQuizzes now querySnapshot with
  | .error e => .error e
  | .ok fetchedQuizzes => .ok (setContentItems (hardcodedContent ++ fetchedQuizzes) st)

/-- The error callback passed to `onSnapshot` (lines 121-123). -/
def onSnapshotError (error : String) (st : State) : State :=
  consoleError "Error fetching quizzes:" error st

/-- The callback passed to `onAuthStateChanged` (lines 80-89), without the call
of `authenticate()`, which touches no state cell. -/
def onAuthChange (user : Option FirebaseUser) (st : State) : State :=
  match user with
  | some u => setIsAuthReady true (setUserId (some u.uid) st)
  | none => setIsAuthReady true (setUserId none st)

/-! ### Filter and search -/

/-- `String.prototype.includes`: `t` occurs in `s` as a substring. -/
def includesStr (s t : String) : Bool :=
  s.data.tails.any fun u => t.data.isPrefixOf u

/-- The expression `field?.toLowerCase()?.includes(searchQuery?.toLowerCase())`
of lines 138-139 for one field; an absent field gives `undefined`, which is
falsy.  `toLowerCase` is `String.prototype.toLowerCase`. -/
def fieldMatches (toLowerCase : String → String) (field : Option String)
    (searchQuery : String) : Bool :=
  match field with
  | some s => includesStr (toLowerCase s) (toLowerCase searchQuery)
  | none => false

/-- The constant `filteredContent`, lines 136-141. -/
def filteredContent (toLowerCase : String → String) (contentItems : List ContentItem)
    (selectedCategory searchQuery : String) : List ContentItem :=
  contentItems.filter fun item =>
    let matchesCategory := selectedCategory == "all" || item.type == selectedCategory
    let matchesSearch := fieldMatches toLowerCase item.title searchQuery
      || fieldMatches toLowerCase item.subject searchQuery
    matchesCategory && matchesSearch

/-- An entry of `categories`. -/
structure Category where
  value : String
  label : String
  count : Nat
  deriving DecidableEq, Repr

/-- The constant `categories`, lines 128-134. -/
def categories (contentItems : List ContentItem) : List Category :=
  [ { value := "all", label := "All Content", count := contentItems.length },
    { value := "lesson", label := "Lessons",
      count := (contentItems.filter fun item => item.type == "lesson").length },
    { value := "video", label := "Videos",
      count := (contentItems.filter fun item => item.type == "video").length },
    { value := "quiz", label := "Quizzes",
      count := (contentItems.filter fun item => item.type == "quiz").length },
    { value := "audio", label := "Audio",
      count := (contentItems.filter fun item => item.type == "audio").length } ]

/-- A lowercasing function on ASCII letters, used to evaluate the filter on
concrete inputs. -/
def lowerASCII (s : String) : String :=
  String.mk (s.data.map Char.toLower)

/-! ### The content synchronizer as a transition system

One transition is one callback run to its end together with the render it
causes and the effects of that render: the cleanup of the previous run of an
effect whose dependencies changed, then the effect itself. -/

/-- Where the component is in its life. -/
inductive Lifecycle where
  | notMounted
  | mounted
  | unmounted
  deriving DecidableEq, Repr

/-- A call made to the store for the collection subscription: `onSnapshot` on
a collection path, or the `unsubscribe` function it returned. -/
inductive SubscriptionCall where
  | opened (path : String)
  | closed (path : String)
  deriving DecidableEq, Repr

/-- The component and its surroundings: the state cells, whether the listener of
`onAuthStateChanged` is registered, the collection subscriptions that are
open (by path), the cleanup function returned by the last run of the quizzes
effect (the path whose listener it closes), the history of subscription
calls, and the number of `authenticate()` calls in flight. -/
structure Machine where
  st : State
  lifecycle : Lifecycle
  authListener : Bool
  subscriptions : List String
  cleanup : Option String
  calls : List SubscriptionCall
  signIns : Nat
  deriving DecidableEq, Repr

/-- The machine before the component mounts. -/
def Machine.initial : Machine :=
  { st := State.initial, lifecycle := .notMounted, authListener := false,
    subscriptions := [], cleanup := none, calls := [], signIns := 0 }

/-- The collection path of line 98 for the application `appId`. -/
def quizzesPath (appId userId : String) : String :=
  "artifacts/" ++ appId ++ "/users/" ++ userId ++ "/quizzes"

/-- The body of the quizzes effect, lines 95-125: it returns at once when
`!isAuthReady || !userId` (a null or empty `userId` is falsy), and otherwise
opens the subscription and returns the cleanup that closes it. -/
def quizzesEffect (appId : String) (m : Machine) : Machine :=
  let userIdFalsy :=
    match m.st.userId with
    | none => true
    | some userId => userId == ""
  if !m.st.isAuthReady || userIdFalsy then
    { m with cleanup := none }
  else
    let path := quizzesPath appId (m.st.userId.getD "")
    { m with
      subscriptions := path :: m.subscriptions,
      cleanup := some path,
      calls := m.calls ++ [.opened path] }

/-- Running the cleanup of the quizzes effect (line 125), if it returned one. -/
def runCleanup (m : Machine) : Machine :=
  match m.cleanup with
  | some path =>
    { m with
      subscriptions := m.subscriptions.erase path,
      cleanup := none,
      calls := m.calls ++ [.closed path] }
  | none => m

/-- The render after a state change: the quizzes effect runs again, after the
cleanup of its previous run, when one of its dependencies
`[isAuthReady, userId]` differs from the value in the state `before`. -/
def rerender (appId : String) (before : State) (m : Machine) : Machine :=
  if before.isAuthReady = m.st.isAuthReady ∧ before.userId = m.st.userId then m
  else quizzesEffect appId (runCleanup m)

/-- What can happen to the component: it mounts, the credential store reports
a session change, a sign-in started by `authenticate()` settles (with its
error when it fails), the collection subscription delivers a snapshot taken at
time `now` or reports an error, the component unmounts. -/
inductive Event where
  | mount
  | authStateChanged (user : Option FirebaseUser)
  | signInSettled (error : Option String)
  | snapshot (now : String) (docs : List QuizDoc)
  | snapshotError (error : String)
  | unmount
  deriving DecidableEq, Repr

/-- One transition; `none` when the event cannot occur in the state. -/
def step (appId : String) (m : Machine) : Event → Option Machine
  | .mount =>
    if m.lifecycle = .notMounted then
      some (quizzesEffect appId { m with lifecycle := .mounted, authListener := true })
    else none
  | .authStateChanged user =>
    if m.authListener then
      some (rerender appId m.st
        { m with
          st := onAuthChange user m.st,
          signIns := if user.isNone then m.signIns + 1 else m.signIns })
    else none
  | .signInSettled error =>
    if m.signIns = 0 then none
    else
      match error with
      | none => some { m with signIns := m.signIns - 1 }
      | some e =>
        some { m with
          st := consoleError "Firebase authentication failed:" e m.st,
          signIns := m.signIns - 1 }
  | .snapshot now docs =>
    if m.subscriptions = [] then none
    else
      match onSnapshotNext now docs m.st with
      | .ok st1 => some { m with st := st1 }
      | .error _ => some m
  | .snapshotError error =>
    if m.subscriptions = [] then none
    else some { m with st := onSnapshotError error m.st }
  | .unmount =>
    if m.lifecycle = .mounted then
      some (runCleanup { m with lifecycle := .unmounted, authListener := false })
    else none

/-- The machine after a sequence of events, `none` if one of them cannot occur. -/
def run (appId : String) (m : Machine) : List Event → Option Machine
  | [] => some m
  | e :: es => (step appId m e).bind fun m1 => run appId m1 es

/-- The documents and time of the last snapshot event of a sequence all of
whose documents are readable. -/
def lastSnapshot : List Event → Option (String × List QuizDoc)
  | [] => none
  | e :: es =>
    match lastSnapshot es with
    | some r => some r
    | none =>
      match e with
      | .snapshot now docs => if docs.all QuizDoc.readable then some (now, docs) else none
      | _ => none

/-- The identity after a sequence of events, starting from `cur`: the `uid`
carried by the last session-change event, absent when that event carried no
user. -/
def identityAfter : Option String → List Event → Option String
  | cur, [] => cur
  | _, .authStateChanged user :: es => identityAfter (user.map fun u => u.uid) es
  | cur, _ :: es => identityAfter cur es

/-- The subscription that the quizzes effect holds for a `userId`: none for a
null or empty `userId`, otherwise the one on the path of that `userId`. -/
def expectedSubscription (appId : String) (userId : Option String) : Option String :=
  match userId with
  | none => none
  | some u => if u = "" then none else some (quizzesPath appId u)

/-- Replaying a history of subscription calls from the subscription `cur` that
is open: a subscription may be opened only when none is open, and only the
open subscription may be closed.  The result is the subscription open at the
end, or `none` when the history breaks the discipline. -/
def replay : Option String → List SubscriptionCall → Option (Option String)
  | cur, [] => some cur
  | none, .opened path :: rest => replay (some path) rest
  | some _, .opened _ :: _ => none
  | some cur, .closed path :: rest => if path = cur then replay none rest else none
  | none, .closed _ :: _ => none

/-- Modelled from the spec: a store-assigned identifier, that is, an
identifier generated by the store for a new document: twenty characters, each
a letter or a digit. -/
def storeAssigned (id : String) : Bool :=
  id.length == 20 && id.data.all Char.isAlphanum

/-- Agreement between the bookkeeping of the machine and the store: the open
subscriptions are exactly the one that the cleanup of the last effect run
closes; while mounted that is the subscription expected for the current
`userId`, and otherwise there is none; the call history obeys the discipline
of `replay` and ends with that subscription open; the listener of
`onAuthStateChanged` is registered only while mounted; and a `userId` is set
only with `isAuthReady`. -/
def Consistent (appId : String) (m : Machine) : Prop :=
  m.subscriptions = m.cleanup.toList
    ∧ (m.lifecycle = .mounted → m.cleanup = expectedSubscription appId m.st.userId)
    ∧ (m.lifecycle ≠ .mounted → m.cleanup = none)
    ∧ replay none m.calls = some m.cleanup
    ∧ (m.authListener = true → m.lifecycle = .mounted)
    ∧ (m.st.userId ≠ none → m.st.isAuthReady = true)

end ContentLibrary

/-! ## Properties of the access guard -/

/-- On role values `includes` is list membership. -/
theorem includes_iff (xs : List JSVal) (v : JSVal) : includes xs v = true ↔ v ∈ xs := by
  simp only [includes, List.any_eq_true, decide_eq_true_eq]
  constructor
  · rintro ⟨x, hx, rfl⟩
    exact hx
  · intro h
    exact ⟨v, h, rfl⟩

/-- When `ProtectedRoute` renders its children. -/
theorem guard_table_render (auth : Session) (props : RouteRequirement) :
    ProtectedRoute props auth = .render ↔
      auth.loading = false ∧
        ((props.requireAuth = true ∧ auth.user ≠ none ∧
            (props.allowedRoles = [] ∨ auth.userRole ∈ props.allowedRoles))
          ∨ (props.requireAuth = false ∧ auth.user = none)) := by
  obtain ⟨user, userRole, loading⟩ := auth
  obtain ⟨requireAuth, allowedRoles⟩ := props
  have hmem := includes_iff allowedRoles userRole
  cases loading <;> cases requireAuth <;> cases user <;>
    cases hinc : includes allowedRoles userRole <;>
    cases allowedRoles <;>
    by_cases ht : userRole = .str "teacher" <;>
    simp_all [ProtectedRoute]

/-- C1 (login gate): a resolved session without identity on a route that
requires authentication is sent to `/login` with `replace`, whatever the
allowed roles and whatever the role value. -/
theorem login_gate (userRole : JSVal) (allowedRoles : List JSVal) :
    ProtectedRoute { requireAuth := true, allowedRoles := allowedRoles }
        { user := none, userRole := userRole, loading := false }
      = .navigate "/login" true := by
  simp [ProtectedRoute]

/-- C2 as stated fails: the resolved session without identity (role `null`) on
`/teacher-dashboard` satisfies every hypothesis of the role gate, yet the
decision is the redirect to `/login`, not the redirect to the role home. -/
theorem role_gate_counterexample :
    (Session.mk none .null false).loading = false
      ∧ (RouteRequirement.mk true [.str "teacher"]).requireAuth = true
      ∧ (RouteRequirement.mk true [.str "teacher"]).allowedRoles ≠ []
      ∧ (Session.mk none .null false).userRole
          ∉ (RouteRequirement.mk true [.str "teacher"]).allowedRoles
      ∧ ProtectedRoute (RouteRequirement.mk true [.str "teacher"]) (Session.mk none .null false)
          = .navigate "/login" true
      ∧ ProtectedRoute (RouteRequirement.mk true [.str "teacher"]) (Session.mk none .null false)
          ≠ .navigate (roleHome (Session.mk none .null false).userRole) true := by
  decide

/-- C2 (role gate, amended): on a route that requires authentication with a
non-empty list of allowed roles that does not contain the session role, a
resolved session is never rendered; it is sent to its role home when an
identity is present, and to `/login` when the identity is absent. -/
theorem role_gate (auth : Session) (props : RouteRequirement)
    (hl : auth.loading = false) (hr : props.requireAuth = true)
    (hne : props.allowedRoles ≠ []) (hm : auth.userRole ∉ props.allowedRoles) :
    ProtectedRoute props auth ≠ .render
      ∧ (auth.user ≠ none → ProtectedRoute props auth
          = .navigate (if auth.userRole = .str "teacher" then "/teacher-dashboard"
              else "/student-dashboard") true)
      ∧ (auth.user = none → ProtectedRoute props auth = .navigate "/login" true) := by
  obtain ⟨user, userRole, loading⟩ := auth
  obtain ⟨requireAuth, allowedRoles⟩ := props
  simp only at hl hr hne hm
  subst hl hr
  have hlen : allowedRoles.length > 0 := List.length_pos.mpr hne
  have hinc : includes allowedRoles userRole = false := by
    simp only [includes, List.any_eq_false, decide_eq_true_eq]
    intro x hx hxe
    exact hm (hxe ▸ hx)
  cases user with
  | none => simp [ProtectedRoute]
  | some u =>
    simp only [ProtectedRoute, hlen, hinc]
    by_cases ht : userRole = .str "teacher" <;> simp [ht]

/-- Witness for C2: the student on `/content-management` is sent to
`/student-dashboard`. -/
theorem role_gate_witness :
    ProtectedRoute { requireAuth := true, allowedRoles := [.str "teacher"] }
        { user := some ⟨"U"⟩, userRole := .str "student", loading := false }
      = .navigate "/student-dashboard" true :=
  (role_gate { user := some ⟨"U"⟩, userRole := .str "student", loading := false }
    { requireAuth := true, allowedRoles := [.str "teacher"] }
    rfl rfl (by decide) (by decide)).2.1 (by decide)

/-- C3 (anonymous-only gate): a resolved session with an identity on a route
that does not require authentication is sent to `/teacher-dashboard` when its
role is teacher and to `/student-dashboard` for every other role value,
whatever the allowed roles. -/
theorem anonymous_only_gate (u : FirebaseUser) (userRole : JSVal)
    (allowedRoles : List JSVal) :
    ProtectedRoute { requireAuth := false, allowedRoles := allowedRoles }
        { user := some u, userRole := userRole, loading := false }
      = .navigate (if userRole = .str "teacher" then "/teacher-dashboard"
          else "/student-dashboard") true := by
  by_cases ht : userRole = .str "teacher" <;> simp [ProtectedRoute, ht]

/-- C4 (decision table): `ProtectedRoute` emits exactly the directive of the
five ordered rules of the specification; while the session is initializing it
waits whatever the other inputs are; and it renders exactly when the session
is resolved and either the route requires authentication, an identity is
present and the allowed roles are empty or contain the role, or the route does
not require authentication and the identity is absent. -/
theorem guard_refines_decision_table (auth : Session) (props : RouteRequirement) :
    ProtectedRoute props auth = directive auth (decideSpec auth props)
      ∧ ProtectedRoute props { auth with loading := true } = .wait
      ∧ decideSpec { auth with loading := true } props = .Wait
      ∧ (ProtectedRoute props auth = .render ↔
          auth.loading = false ∧
            ((props.requireAuth = true ∧ auth.user ≠ none ∧
                (props.allowedRoles = [] ∨ auth.userRole ∈ props.allowedRoles))
              ∨ (props.requireAuth = false ∧ auth.user = none))) := by
  obtain ⟨user, userRole, loading⟩ := auth
  obtain ⟨requireAuth, allowedRoles⟩ := props
  have hmem := includes_iff allowedRoles userRole
  refine ⟨?_, by simp [ProtectedRoute], by simp [decideSpec], ?_⟩
  · cases loading <;> cases requireAuth <;> cases user <;>
      cases hinc : includes allowedRoles userRole <;>
      cases allowedRoles <;>
      by_cases ht : userRole = .str "teacher" <;>
      simp_all [ProtectedRoute, decideSpec, directive, roleHome]
  · exact guard_table_render ⟨user, userRole, loading⟩ ⟨requireAuth, allowedRoles⟩

/-- C5 (role scoping of the route table): for a resolved session, the teacher
pages render exactly for an identity with role teacher, the student dashboard
exactly for an identity with role student, the shared pages exactly for an
identity with role student or teacher, and `/login` and `/` exactly when the
identity is absent. -/
theorem route_role_scoping (user : Option FirebaseUser) (userRole : JSVal) :
    (visit "/teacher-dashboard" ⟨user, userRole, false⟩ = some .render
        ↔ user ≠ none ∧ userRole = .str "teacher")
      ∧ (visit "/content-management" ⟨user, userRole, false⟩ = some .render
        ↔ user ≠ none ∧ userRole = .str "teacher")
      ∧ (visit "/student-dashboard" ⟨user, userRole, false⟩ = some .render
        ↔ user ≠ none ∧ userRole = .str "student")
      ∧ (visit "/progress-tracking" ⟨user, userRole, false⟩ = some .render
        ↔ user ≠ none ∧ (userRole = .str "student" ∨ userRole = .str "teacher"))
      ∧ (visit "/quiz-assessment" ⟨user, userRole, false⟩ = some .render
        ↔ user ≠ none ∧ (userRole = .str "student" ∨ userRole = .str "teacher"))
      ∧ (visit "/lesson-content" ⟨user, userRole, false⟩ = some .render
        ↔ user ≠ none ∧ (userRole = .str "student" ∨ userRole = .str "teacher"))
      ∧ (visit "/login" ⟨user, userRole, false⟩ = some .render ↔ user = none)
      ∧ (visit "/" ⟨user, userRole, false⟩ = some .render ↔ user = none) := by
  have h1 : ∀ a, visit "/teacher-dashboard" a
      = some (ProtectedRoute ⟨true, [.str "teacher"]⟩ a) := fun _ => rfl
  have h2 : ∀ a, visit "/content-management" a
      = some (ProtectedRoute ⟨true, [.str "teacher"]⟩ a) := fun _ => rfl
  have h3 : ∀ a, visit "/student-dashboard" a
      = some (ProtectedRoute ⟨true, [.str "student"]⟩ a) := fun _ => rfl
  have h4 : ∀ a, visit "/progress-tracking" a
      = some (ProtectedRoute ⟨true, [.str "student", .str "teacher"]⟩ a) := fun _ => rfl
  have h5 : ∀ a, visit "/quiz-assessment" a
      = some (ProtectedRoute ⟨true, [.str "student", .str "teacher"]⟩ a) := fun _ => rfl
  have h6 : ∀ a, visit "/lesson-content" a
      = some (ProtectedRoute ⟨true, [.str "student", .str "teacher"]⟩ a) := fun _ => rfl
  have h7 : ∀ a, visit "/login" a = some (ProtectedRoute ⟨false, []⟩ a) := fun _ => rfl
  have h8 : ∀ a, visit "/" a = some (ProtectedRoute ⟨false, []⟩ a) := fun _ => rfl
  simp only [h1, h2, h3, h4, h5, h6, h7, h8, Option.some.injEq,
    (guard_table_render _ _)]
  simp

/-! ## Properties of the session manager -/

/-- The session exposed after one transition keeps the invariant that an absent
identity comes with a null role. -/
theorem step_keeps_role_with_identity (m m1 : Machine) (e : Event)
    (hinv : m.st.user = none → m.st.userRole = .null) (hs : step m e = some m1) :
    m1.st.user = none → m1.st.userRole = .null := by
  cases e with
  | authStateChanged firebaseUser =>
    cases firebaseUser with
    | none =>
      simp only [step, Option.some.injEq] at hs
      subst hs
      intro _
      rfl
    | some u =>
      simp only [step, Option.some.injEq] at hs
      subst hs
      exact hinv
  | getDocSettled k o =>
    simp only [step] at hs
    cases hk : m.lookups[k]? with
    | none => simp [hk] at hs
    | some u =>
      rw [hk] at hs
      rcases o with (_ | userData) | error <;>
        simp only [resumeCallback, fetchUserData, Option.some.injEq] at hs <;>
        subst hs <;> intro h
      · rfl
      · exact absurd h (by simp [setLoading, setUserRole, setUser])
      · rfl
  | logoutCalled =>
    simp only [step, Option.some.injEq] at hs
    subst hs
    exact hinv
  | signOutSettled o =>
    simp only [step] at hs
    split at hs
    · exact absurd hs (by simp)
    · cases o with
      | resolved =>
        simp only [logout, signOutAndClear, Option.some.injEq] at hs
        subst hs
        intro _
        rfl
      | rejected error =>
        simp only [logout, signOutAndClear, Option.some.injEq] at hs
        subst hs
        exact hinv

/-- The invariant holds after every sequence of events from a state where it
holds. -/
theorem run_keeps_role_with_identity (es : List Event) (m m1 : Machine)
    (hinv : m.st.user = none → m.st.userRole = .null) (hr : run m es = some m1) :
    m1.st.user = none → m1.st.userRole = .null := by
  induction es generalizing m with
  | nil =>
    simp only [run, Option.some.injEq] at hr
    subst hr
    exact hinv
  | cons e es ih =>
    simp only [run] at hr
    cases hs : step m e with
    | none => simp [hs] at hr
    | some m2 =>
      rw [hs] at hr
      exact ih m2 (step_keeps_role_with_identity m m2 e hinv hs) hr

/-- C6 (unauthenticated outcomes): when the session-change event carries no
identity, or carries one whose profile lookup finds no document or is
rejected, the callback resolves (no error escapes it) and leaves the session
with identity absent, role null and loading false, whatever the state before. -/
theorem unauthenticated_outcomes (getDoc : String → GetDocOutcome)
    (firebaseUser : Option FirebaseUser) (st : AuthProviderState)
    (h : firebaseUser = none ∨ ∃ u, firebaseUser = some u ∧
      (getDoc u.uid = .resolved none ∨ ∃ error, getDoc u.uid = .rejected error)) :
    ∃ st1, onAuthStateChanged getDoc firebaseUser st = .ok st1
      ∧ st1.value = { user := none, userRole := .null, loading := false } := by
  rcases h with rfl | ⟨u, rfl, hd | ⟨error, hd⟩⟩
  · exact ⟨_, rfl, rfl⟩
  · simp only [onAuthStateChanged, hd, resumeCallback, fetchUserData]
    exact ⟨_, rfl, rfl⟩
  · simp only [onAuthStateChanged, hd, resumeCallback, fetchUserData]
    exact ⟨_, rfl, rfl⟩

/-- Witness for C6: a teacher session, then an event for an identity whose
profile lookup is rejected. -/
theorem unauthenticated_outcomes_witness :
    ∃ st1, onAuthStateChanged (fun _ => .rejected "unavailable") (some ⟨"U"⟩)
        { user := some ⟨"T"⟩, userRole := .str "teacher", loading := false, console := [] }
          = .ok st1
      ∧ st1.value = { user := none, userRole := .null, loading := false } :=
  unauthenticated_outcomes (fun _ => .rejected "unavailable") (some ⟨"U"⟩)
    { user := some ⟨"T"⟩, userRole := .str "teacher", loading := false, console := [] }
    (Or.inr ⟨⟨"U"⟩, rfl, Or.inr ⟨"unavailable", rfl⟩⟩)

/-- C7 (authenticated outcome): when the event carries an identity whose
profile lookup finds a document, the callback resolves and leaves the session
with that identity, the role stored in the document and loading false; and
every run of the callback resolves with loading false. -/
theorem authenticated_outcome (getDoc : String → GetDocOutcome) (u : FirebaseUser)
    (userData : UserData) (st : AuthProviderState)
    (h : getDoc u.uid = .resolved (some userData)) :
    (∃ st1, onAuthStateChanged getDoc (some u) st = .ok st1
        ∧ st1.value = { user := some u, userRole := userData.role, loading := false })
      ∧ ∀ (getDoc2 : String → GetDocOutcome) (firebaseUser : Option FirebaseUser)
          (st2 : AuthProviderState),
          ∃ st3, onAuthStateChanged getDoc2 firebaseUser st2 = .ok st3
            ∧ st3.loading = false := by
  refine ⟨?_, ?_⟩
  · simp only [onAuthStateChanged, h, resumeCallback, fetchUserData]
    exact ⟨_, rfl, rfl⟩
  intro getDoc2 firebaseUser st2
  cases firebaseUser with
  | none => exact ⟨_, rfl, rfl⟩
  | some v => exact ⟨_, rfl, rfl⟩

/-- Witness for C7: the first event of a student whose profile document exists. -/
theorem authenticated_outcome_witness :
    ∃ st1, onAuthStateChanged (fun _ => .resolved (some ⟨.str "student"⟩)) (some ⟨"U"⟩)
        AuthProviderState.initial = .ok st1
      ∧ st1.value = { user := some ⟨"U"⟩, userRole := .str "student", loading := false } :=
  (authenticated_outcome (fun _ => .resolved (some ⟨.str "student"⟩)) ⟨"U"⟩
    ⟨.str "student"⟩ AuthProviderState.initial rfl).1

/-- C8 as stated fails: a lookup is issued for identity A, the credential store
then reports that no identity is signed in, and the lookup for A then finds a
teacher document.  The session right after the second event is the
unauthenticated one, yet the late lookup result is applied and the final
session carries identity A. -/
theorem stale_lookup_counterexample :
    (run Machine.initial
        [.authStateChanged (some ⟨"A"⟩), .authStateChanged none]).map (fun m => m.st.value)
      = some { user := none, userRole := .null, loading := false }
    ∧ (run Machine.initial
        [.authStateChanged (some ⟨"A"⟩), .authStateChanged none,
          .getDocSettled 0 (.resolved (some ⟨.str "teacher"⟩))]).map (fun m => m.st.value)
      = some { user := some ⟨"A"⟩, userRole := .str "teacher", loading := false } := by
  decide

/-- C8 (amended): lookup results are applied in the order in which the lookups
settle.  With a lookup in flight for identity `a`: (1) after an event without
identity, the lookup for `a` finding a document leaves the session with
identity `a` and the stored role; (2) after an event for identity `b`, if the
lookup for `a` settles first and the lookup for `b` second, the final session
is the outcome of the callback for `b`; (3) if the lookup for `b` settles
first and the lookup for `a` then finds a document, the final session carries
identity `a` and its stored role. -/
theorem lookups_applied_in_settling_order (m : Machine) (a b : FirebaseUser)
    (da : UserData) (oa ob : GetDocOutcome) (st0 : AuthProviderState) :
    (run m [.authStateChanged (some a), .authStateChanged none,
        .getDocSettled 0 (.resolved (some da))]).map (fun m1 => m1.st.value)
      = some { user := some a, userRole := da.role, loading := false }
    ∧ (run m [.authStateChanged (some a), .authStateChanged (some b),
        .getDocSettled 1 oa, .getDocSettled 0 ob]).map (fun m1 => m1.st.value)
      = (onAuthStateChanged (fun _ => ob) (some b) st0).toOption.map AuthProviderState.value
    ∧ (run m [.authStateChanged (some a), .authStateChanged (some b),
        .getDocSettled 0 ob, .getDocSettled 0 (.resolved (some da))]).map
          (fun m1 => m1.st.value)
      = some { user := some a, userRole := da.role, loading := false } := by
  refine ⟨?_, ?_, ?_⟩
  · simp [run, step, resumeCallback, fetchUserData, signedOutCallback, setLoading,
      setUserRole, setUser, AuthProviderState.value]
  · rcases ob with (_ | db) | eb <;>
      simp [run, step, resumeCallback, fetchUserData, onAuthStateChanged, setLoading,
        setUserRole, setUser, consoleError, AuthProviderState.value, Except.toOption]
  · simp [run, step, resumeCallback, fetchUserData, setLoading,
      setUserRole, setUser, AuthProviderState.value]

/-- C9 (session invariant): in every state reached from the initial state by
session-change events, lookup settlements, logout calls and sign-out
settlements, a non-null role comes with an identity, and every transition
from such a state into a state without identity leaves the role null. -/
theorem role_only_with_identity (es : List Event) (m : Machine)
    (h : run Machine.initial es = some m) :
    (m.st.userRole ≠ .null → m.st.user ≠ none)
      ∧ ∀ (e : Event) (m1 : Machine), step m e = some m1 →
          m1.st.user = none → m1.st.userRole = .null := by
  have hinv : m.st.user = none → m.st.userRole = .null :=
    run_keeps_role_with_identity es Machine.initial m (fun _ => rfl) h
  refine ⟨fun hr hu => hr (hinv hu), ?_⟩
  intro e m1 hs
  exact step_keeps_role_with_identity m m1 e hinv hs

/-- Witness for C9: a teacher signs in, the lookup finds the profile and
`logout` is called; the role is set and the identity is present. -/
theorem role_only_with_identity_witness :
    run Machine.initial [.authStateChanged (some ⟨"T"⟩),
        .getDocSettled 0 (.resolved (some ⟨.str "teacher"⟩)), .logoutCalled]
      = some { st := { user := some ⟨"T"⟩, userRole := .str "teacher", loading := false,
                       console := [] },
               lookups := [], signOuts := 1 }
    ∧ (some ⟨"T"⟩ : Option FirebaseUser) ≠ none :=
  ⟨rfl, (role_only_with_identity
    [.authStateChanged (some ⟨"T"⟩),
      .getDocSettled 0 (.resolved (some ⟨.str "teacher"⟩)), .logoutCalled]
    { st := { user := some ⟨"T"⟩, userRole := .str "teacher", loading := false,
              console := [] },
      lookups := [], signOuts := 1 } rfl).1 (by decide)⟩

/-- C10 (logout, effect on state): when the sign-out resolves, `logout` itself
leaves the session with identity absent and role null (as does the transition
of the machine, with no session-change event); when the sign-out is rejected,
identity, role and loading are what they were before. -/
theorem logout_effect (st : AuthProviderState) (error : String)
    (lookups : List FirebaseUser) (n : Nat) :
    (∃ st1, logout .resolved st = .ok st1
        ∧ st1.value = { user := none, userRole := .null, loading := st.loading })
      ∧ (step { st := st, lookups := lookups, signOuts := n + 1 }
            (.signOutSettled .resolved)).map (fun m => m.st.value)
          = some { user := none, userRole := .null, loading := st.loading }
      ∧ (∃ st1, logout (.rejected error) st = .ok st1 ∧ st1.value = st.value)
      ∧ (step { st := st, lookups := lookups, signOuts := n + 1 }
            (.signOutSettled (.rejected error))).map (fun m => m.st.value)
          = some st.value :=
  ⟨⟨_, rfl, rfl⟩, rfl, ⟨_, rfl, rfl⟩, rfl⟩

/-- C11 (logout, failure reporting) evaluated on the code: with a teacher signed
in and the sign-out rejected, `logout` resolves (its result is a success, the
error is only written to the console), so `handleLogout` runs the rest of its
`try` block: it navigates to `/login` and closes the menus, and its `catch`
block writes nothing. -/
theorem logout_failure_not_surfaced :
    logout (.rejected "auth/network-request-failed")
        { user := some ⟨"T"⟩, userRole := .str "teacher", loading := false, console := [] }
      = .ok { user := some ⟨"T"⟩, userRole := .str "teacher", loading := false,
              console := ["Error signing out: auth/network-request-failed"] }
    ∧ Header.handleLogout (.rejected "auth/network-request-failed")
        { user := some ⟨"T"⟩, userRole := .str "teacher", loading := false, console := [] }
        { isMenuOpen := true, isUserMenuOpen := true, navigations := [], console := [] }
      = .ok ({ user := some ⟨"T"⟩, userRole := .str "teacher", loading := false,
               console := ["Error signing out: auth/network-request-failed"] },
             { isMenuOpen := false, isUserMenuOpen := false, navigations := ["/login"],
               console := [] }) :=
  ⟨rfl, rfl⟩

/-- C17 as stated fails: the session manager produces a resolved session with
an identity and the stored role `admin`; on `/teacher-dashboard` the guard
redirects it to `/student-dashboard`, and on `/student-dashboard` the guard
redirects it again instead of rendering. -/
theorem redirect_again_counterexample :
    (onAuthStateChanged (fun _ => .resolved (some ⟨.str "admin"⟩)) (some ⟨"U"⟩)
        AuthProviderState.initial).toOption.map AuthProviderState.value
      = some { user := some ⟨"U"⟩, userRole := .str "admin", loading := false }
    ∧ visit "/teacher-dashboard" { user := some ⟨"U"⟩, userRole := .str "admin", loading := false }
      = some (.navigate "/student-dashboard" true)
    ∧ visit "/student-dashboard" { user := some ⟨"U"⟩, userRole := .str "admin", loading := false }
      = some (.navigate "/student-dashboard" true) := by
  decide

/-- C17 (amended): for a resolved session whose identity is absent, or whose
role is student or teacher, and every guarded route of the table, if the
decision of the guard is a redirect then the same session is rendered on the
destination of the redirect. -/
theorem redirects_settle_in_one_hop (auth : Session) (entry : RouteEntry)
    (props : RouteRequirement) (target : String) (replace : Bool)
    (hl : auth.loading = false)
    (hr : auth.user = none ∨ auth.userRole = .str "student" ∨ auth.userRole = .str "teacher")
    (he : entry ∈ Routes) (hg : entry.guard = some props)
    (hd : ProtectedRoute props auth = .navigate target replace) :
    visit target auth = some .render := by
  obtain ⟨user, userRole, loading⟩ := auth
  simp only at hl hr
  subst hl
  have h1 : ∀ a, visit "/login" a = some (ProtectedRoute ⟨false, []⟩ a) := fun _ => rfl
  have h2 : ∀ a, visit "/teacher-dashboard" a
      = some (ProtectedRoute ⟨true, [.str "teacher"]⟩ a) := fun _ => rfl
  have h3 : ∀ a, visit "/student-dashboard" a
      = some (ProtectedRoute ⟨true, [.str "student"]⟩ a) := fun _ => rfl
  simp only [Routes, List.mem_cons, List.mem_singleton, List.not_mem_nil, or_false] at he
  rcases he with rfl | rfl | rfl | rfl | rfl | rfl | rfl | rfl | rfl <;>
    simp only [Option.some.injEq, reduceCtorEq] at hg <;> subst hg <;>
    cases user <;>
    simp [ProtectedRoute, includes] at hd <;>
    rcases hr with hu | rfl | rfl <;>
    simp_all [ProtectedRoute, includes]

/-- Witness for C17: a student sent from `/content-management` to
`/student-dashboard` is rendered there. -/
theorem redirects_settle_in_one_hop_witness :
    ProtectedRoute { requireAuth := true, allowedRoles := [.str "teacher"] }
        { user := some ⟨"U"⟩, userRole := .str "student", loading := false }
      = .navigate "/student-dashboard" true
    ∧ visit "/student-dashboard"
        { user := some ⟨"U"⟩, userRole := .str "student", loading := false }
      = some .render :=
  ⟨by decide,
    redirects_settle_in_one_hop
      { user := some ⟨"U"⟩, userRole := .str "student", loading := false }
      { path := "/content-management",
        guard := some { requireAuth := true, allowedRoles := [.str "teacher"] },
        page := "ContentManagement" }
      { requireAuth := true, allowedRoles := [.str "teacher"] }
      "/student-dashboard" true rfl (Or.inr (Or.inl rfl)) (by decide) rfl (by decide)⟩

/-! ## Properties of the content library -/

namespace ContentLibrary

/-- The quizzes effect touches no state cell. -/
theorem quizzesEffect_st (appId : String) (m : Machine) : (quizzesEffect appId m).st = m.st := by
  unfold quizzesEffect
  dsimp only
  split_ifs <;> rfl

/-- The cleanup of the quizzes effect touches no state cell. -/
theorem runCleanup_st (m : Machine) : (runCleanup m).st = m.st := by
  unfold runCleanup
  split <;> rfl

/-- A render touches no state cell. -/
theorem rerender_st (appId : String) (before : State) (m : Machine) :
    (rerender appId before m).st = m.st := by
  unfold rerender
  split
  · rfl
  · rw [quizzesEffect_st, runCleanup_st]

/-- An item built from a document carries its identifier, title and subject,
and only a readable document yields an item. -/
theorem toContentItem_ok (now : String) (d : QuizDoc) (item : ContentItem)
    (h : toContentItem now d = .ok item) :
    item.id = d.id ∧ item.title = d.title ∧ item.subject = d.subject
      ∧ d.readable = true := by
  unfold toContentItem at h
  cases hf : fileSizeOf d.questions with
  | error e => simp [hf] at h
  | ok fileSize =>
    cases hu : uploadDateOf now d.createdAt with
    | error e => simp [hf, hu] at h
    | ok uploadDate =>
      simp only [hf, hu, Except.ok.injEq] at h
      subst h
      refine ⟨rfl, rfl, rfl, ?_⟩
      have hq : d.questions ≠ .absent := by
        intro hq
        simp [hq, fileSizeOf] at hf
      have hc : d.createdAt ≠ .other := by
        intro hc
        simp [hc, uploadDateOf] at hu
      simp [QuizDoc.readable, hq, hc]

/-- Every readable document yields an item. -/
theorem toContentItem_readable (now : String) (d : QuizDoc) (h : d.readable = true) :
    ∃ item, toContentItem now d = .ok item := by
  simp only [QuizDoc.readable, Bool.and_eq_true, decide_eq_true_eq] at h
  obtain ⟨hq, hc⟩ := h
  unfold toContentItem
  cases hqq : d.questions with
  | absent => exact absurd hqq hq
  | array items =>
    cases hcc : d.createdAt with
    | other => exact absurd hcc hc
    | absent => exact ⟨_, rfl⟩
    | timestamp iso => exact ⟨_, rfl⟩
  | other length =>
    cases length <;> cases hcc : d.createdAt with
    | other => exact absurd hcc hc
    | absent => exact ⟨_, rfl⟩
    | timestamp iso => exact ⟨_, rfl⟩

/-- When the loop over a snapshot completes, every document was readable and
the items follow the documents one by one, in order. -/
theorem fetchQuizzes_ok (now : String) (docs : List QuizDoc) (items : List ContentItem)
    (h : fetchQuizzes now docs = .ok items) :
    docs.all QuizDoc.readable = true
      ∧ items.length = docs.length
      ∧ items.map (fun item => item.id) = docs.map (fun d => d.id)
      ∧ ∀ item ∈ items, ∃ d ∈ docs, item.title = d.title ∧ item.subject = d.subject := by
  induction docs generalizing items with
  | nil =>
    simp only [fetchQuizzes, Except.ok.injEq] at h
    subst h
    simp
  | cons d rest ih =>
    simp only [fetchQuizzes] at h
    cases hd : toContentItem now d with
    | error e => simp [hd] at h
    | ok item =>
      cases hr : fetchQuizzes now rest with
      | error e => simp [hd, hr] at h
      | ok items1 =>
        simp only [hd, hr, Except.ok.injEq] at h
        subst h
        obtain ⟨i1, i2, i3, i4⟩ := ih items1 hr
        obtain ⟨t1, t2, t3, t4⟩ := toContentItem_ok now d item hd
        refine ⟨by simp [t4, i1], by simp [i2], by simp [t1, i3], ?_⟩
        intro x hx
        rcases List.mem_cons.mp hx with rfl | hx
        · exact ⟨d, List.mem_cons_self _ _, t2, t3⟩
        · obtain ⟨d1, hd1, h1⟩ := i4 x hx
          exact ⟨d1, List.mem_cons_of_mem _ hd1, h1⟩

/-- The loop over a snapshot completes when every document is readable. -/
theorem fetchQuizzes_readable (now : String) (docs : List QuizDoc)
    (h : docs.all QuizDoc.readable = true) : ∃ items, fetchQuizzes now docs = .ok items := by
  induction docs with
  | nil => exact ⟨[], rfl⟩
  | cons d rest ih =>
    simp only [List.all_cons, Bool.and_eq_true] at h
    obtain ⟨item, hi⟩ := toContentItem_readable now d h.1
    obtain ⟨items, hr⟩ := ih h.2
    exact ⟨item :: items, by simp [fetchQuizzes, hi, hr]⟩

/-- The published list after one transition: the merge of the snapshot for a
snapshot event whose documents are all readable, the list as it was for every
other event. -/
theorem step_contentItems (appId : String) (m m1 : Machine) (e : Event)
    (hs : step appId m e = some m1) :
    m1.st.contentItems =
      match e with
      | .snapshot now docs =>
        match fetchQuizzes now docs with
        | .ok fetched => hardcodedContent ++ fetched
        | .error _ => m.st.contentItems
      | _ => m.st.contentItems := by
  cases e with
  | mount =>
    simp only [step] at hs
    split at hs
    · simp only [Option.some.injEq] at hs
      subst hs
      rw [quizzesEffect_st]
    · exact absurd hs (by simp)
  | authStateChanged user =>
    simp only [step] at hs
    split at hs
    · simp only [Option.some.injEq] at hs
      subst hs
      rw [rerender_st]
      cases user <;> rfl
    · exact absurd hs (by simp)
  | signInSettled error =>
    simp only [step] at hs
    split at hs
    · exact absurd hs (by simp)
    · cases error <;> simp only [Option.some.injEq] at hs <;> subst hs <;> rfl
  | snapshot now docs =>
    simp only [step] at hs
    split at hs
    · exact absurd hs (by simp)
    · simp only [onSnapshotNext] at hs
      cases hf : fetchQuizzes now docs with
      | error e =>
        simp only [hf, Option.some.injEq] at hs
        subst hs
        simp only [hf]
      | ok fetched =>
        simp only [hf, Option.some.injEq] at hs
        subst hs
        simp only [hf]
        rfl
  | snapshotError error =>
    simp only [step] at hs
    split at hs
    · exact absurd hs (by simp)
    · simp only [Option.some.injEq] at hs
      subst hs
      rfl
  | unmount =>
    simp only [step] at hs
    split at hs
    · simp only [Option.some.injEq] at hs
      subst hs
      rw [runCleanup_st]
    · exact absurd hs (by simp)

/-- The published list after a sequence of events: the merge of the last
snapshot of the sequence whose documents are all readable, or the list as it
was when there was no such snapshot. -/
theorem run_contentItems (appId : String) (es : List Event) (m m1 : Machine)
    (hr : run appId m es = some m1) :
    match lastSnapshot es with
    | some r => ∃ fetched, fetchQuizzes r.1 r.2 = .ok fetched
        ∧ m1.st.contentItems = hardcodedContent ++ fetched
    | none => m1.st.contentItems = m.st.contentItems := by
  induction es generalizing m with
  | nil =>
    simp only [run, Option.some.injEq] at hr
    subst hr
    simp [lastSnapshot]
  | cons e es ih =>
    simp only [run] at hr
    cases hs : step appId m e with
    | none => simp [hs] at hr
    | some m2 =>
      rw [hs] at hr
      have h2 := ih m2 hr
      have h1 := step_contentItems appId m m2 e hs
      simp only [lastSnapshot]
      cases hl : lastSnapshot es with
      | some r =>
        rw [hl] at h2
        exact h2
      | none =>
        rw [hl] at h2
        simp only at h2
        cases e with
        | snapshot now docs =>
          simp only at h1
          by_cases hall : docs.all QuizDoc.readable = true
          · obtain ⟨fetched, hf⟩ := fetchQuizzes_readable now docs hall
            rw [hf] at h1
            simp only [hall, if_true]
            exact ⟨fetched, hf, h2.trans h1⟩
          · have herr : ∃ e, fetchQuizzes now docs = .error e := by
              cases hf : fetchQuizzes now docs with
              | error e => exact ⟨e, rfl⟩
              | ok fetched => exact absurd (fetchQuizzes_ok now docs fetched hf).1 hall
            obtain ⟨e, hf⟩ := herr
            rw [hf] at h1
            simp only [hall]
            exact h2.trans h1
        | mount => exact h2.trans h1
        | authStateChanged user => exact h2.trans h1
        | signInSettled error => exact h2.trans h1
        | snapshotError error => exact h2.trans h1
        | unmount => exact h2.trans h1

/-- C12 as stated fails: the component mounts, an identity signs in, and the
first snapshot carries one document without a `questions` field; the callback
throws at line 113 before `setContentItems`, so the published list stays
empty, while the claim gives it the three baseline items and one more. -/
theorem merged_list_counterexample :
    (run "default-app-id" Machine.initial
        [.mount, .authStateChanged (some ⟨"u1"⟩),
          .snapshot "t1" [⟨"q1", some "Fractions", some "Mathematics", none, none,
            .absent, .absent⟩]]).map (fun m => m.st.contentItems.length) = some 0
    ∧ hardcodedContent.length
        + [(⟨"q1", some "Fractions", some "Mathematics", none, none,
            .absent, .absent⟩ : QuizDoc)].length = 4 := by
  decide

/-- C12 (amended): after every sequence of events of the component that
contains a snapshot all of whose documents are readable, the published list is
the three baseline items `hardcoded-1`, `hardcoded-2`, `hardcoded-3` in that
order followed by the items built from the documents of the last such
snapshot, in snapshot order; its length is the number of baseline items plus
the number of documents of that snapshot. -/
theorem merged_list_invariant (appId : String) (es : List Event) (m : Machine)
    (now : String) (docs : List QuizDoc)
    (hr : run appId Machine.initial es = some m)
    (hl : lastSnapshot es = some (now, docs)) :
    ∃ fetched, fetchQuizzes now docs = .ok fetched
      ∧ m.st.contentItems = hardcodedContent ++ fetched
      ∧ m.st.contentItems.length = hardcodedContent.length + docs.length
      ∧ hardcodedContent.length = 3
      ∧ m.st.contentItems.take 3 = hardcodedContent
      ∧ (m.st.contentItems.take 3).map (fun item => item.id)
          = ["hardcoded-1", "hardcoded-2", "hardcoded-3"]
      ∧ m.st.contentItems.drop 3 = fetched
      ∧ fetched.map (fun item => item.id) = docs.map (fun d => d.id) := by
  have h := run_contentItems appId es Machine.initial m hr
  rw [hl] at h
  obtain ⟨fetched, hf, hc⟩ := h
  obtain ⟨_, f2, f3, _⟩ := fetchQuizzes_ok now docs fetched hf
  refine ⟨fetched, hf, hc, ?_, rfl, ?_, ?_, ?_, f3⟩
  · rw [hc, List.length_append, f2]
  · rw [hc]
    rfl
  · rw [hc]
    rfl
  · rw [hc]
    rfl

/-- Witness for C12: after mount and sign-in, a snapshot with two readable
documents, an error, and a snapshot with a document that cannot be read; the
list is the merge of the first snapshot. -/
theorem merged_list_invariant_witness :
    ((run "default-app-id" Machine.initial
        [.mount, .authStateChanged (some ⟨"u1"⟩),
          .snapshot "t1"
            [⟨"q1", some "Fractions", some "Mathematics", none, none, .array [.num 1], .absent⟩,
              ⟨"q2", none, none, none, none, .array [],
                .timestamp "2025-02-01T00:00:00.000Z"⟩],
          .snapshotError "unavailable",
          .snapshot "t2" [⟨"q3", some "Old", some "Art", none, none, .absent, .absent⟩]]).map
        fun m => m.st.contentItems.map fun item => item.id)
      = some ["hardcoded-1", "hardcoded-2", "hardcoded-3", "q1", "q2"] := by
  have hrun : (run "default-app-id" Machine.initial
        [.mount, .authStateChanged (some ⟨"u1"⟩),
          .snapshot "t1"
            [⟨"q1", some "Fractions", some "Mathematics", none, none, .array [.num 1], .absent⟩,
              ⟨"q2", none, none, none, none, .array [],
                .timestamp "2025-02-01T00:00:00.000Z"⟩],
          .snapshotError "unavailable",
          .snapshot "t2" [⟨"q3", some "Old", some "Art", none, none, .absent, .absent⟩]]).isSome
      = true := by decide
  obtain ⟨m, hm⟩ := Option.isSome_iff_exists.mp hrun
  obtain ⟨fetched, _, hc, _, _, _, _, _, hids⟩ :=
    merged_list_invariant "default-app-id" _ m "t1"
      [⟨"q1", some "Fractions", some "Mathematics", none, none, .array [.num 1], .absent⟩,
        ⟨"q2", none, none, none, none, .array [], .timestamp "2025-02-01T00:00:00.000Z"⟩]
      hm (by decide)
  rw [hm]
  simp only [Option.map_some', hc, List.map_append, hids]
  rfl

/-- C13 as stated fails: the component mounts, an identity signs in, and the
subscription reports an error before any snapshot; the published list is the
empty list of `useState([])`, not the three baseline items. -/
theorem subscription_error_counterexample :
    (run "default-app-id" Machine.initial
        [.mount, .authStateChanged (some ⟨"u1"⟩), .snapshotError "permission-denied"]).map
        (fun m => m.st.contentItems) = some []
    ∧ ([] : List ContentItem) ≠ hardcodedContent := by
  decide

/-- C13 (amended): when the collection subscription reports an error, the
error callback returns normally, the published list is left as it was, and the
error is appended to the console. -/
theorem subscription_error_keeps_list (appId : String) (m m1 : Machine) (error : String)
    (hs : step appId m (.snapshotError error) = some m1) :
    m1.st.contentItems = m.st.contentItems
      ∧ m1.st.console = m.st.console ++ ["Error fetching quizzes: " ++ error]
      ∧ m1.st = onSnapshotError error m.st
      ∧ m1.subscriptions = m.subscriptions := by
  simp only [step] at hs
  split at hs
  · exact absurd hs (by simp)
  · simp only [Option.some.injEq] at hs
    subst hs
    refine ⟨rfl, ?_, rfl, rfl⟩
    simp [onSnapshotError, consoleError, String.append_assoc]

/-- Witness for C13: an error after a snapshot without documents leaves the
three published items in place. -/
theorem subscription_error_keeps_list_witness :
    ({ st := { State.initial with
                contentItems := hardcodedContent, isAuthReady := true, userId := some "u1",
                console := ["Error fetching quizzes: unavailable"] },
        lifecycle := .mounted, authListener := true,
        subscriptions := ["artifacts/default-app-id/users/u1/quizzes"],
        cleanup := some "artifacts/default-app-id/users/u1/quizzes",
        calls := [.opened "artifacts/default-app-id/users/u1/quizzes"], signIns := 0 } : Machine).st.contentItems = hardcodedContent :=
  (subscription_error_keeps_list "default-app-id"
      { st := { State.initial with
                contentItems := hardcodedContent, isAuthReady := true, userId := some "u1" },
        lifecycle := .mounted, authListener := true,
        subscriptions := ["artifacts/default-app-id/users/u1/quizzes"],
        cleanup := some "artifacts/default-app-id/users/u1/quizzes",
        calls := [.opened "artifacts/default-app-id/users/u1/quizzes"], signIns := 0 }
      { st := { State.initial with
                contentItems := hardcodedContent, isAuthReady := true, userId := some "u1",
                console := ["Error fetching quizzes: unavailable"] },
        lifecycle := .mounted, authListener := true,
        subscriptions := ["artifacts/default-app-id/users/u1/quizzes"],
        cleanup := some "artifacts/default-app-id/users/u1/quizzes",
        calls := [.opened "artifacts/default-app-id/users/u1/quizzes"], signIns := 0 }
      "unavailable" rfl).1

/-- C15 (identifier uniqueness): for every snapshot whose documents carry
pairwise distinct store-assigned identifiers, the identifiers of the merged
list that the callback publishes are pairwise distinct, and no item after the
baseline items carries the identifier of a baseline item. -/
theorem merged_ids_distinct (now : String) (docs : List QuizDoc) (st st1 : State)
    (hn : (docs.map fun d => d.id).Nodup)
    (hsa : ∀ d ∈ docs, storeAssigned d.id = true)
    (hok : onSnapshotNext now docs st = .ok st1) :
    (st1.contentItems.map fun item => item.id).Nodup
      ∧ ∀ item ∈ st1.contentItems.drop 3,
          item.id ∉ ["hardcoded-1", "hardcoded-2", "hardcoded-3"] := by
  simp only [onSnapshotNext] at hok
  cases hf : fetchQuizzes now docs with
  | error e => simp [hf] at hok
  | ok fetched =>
    simp only [hf, Except.ok.injEq] at hok
    subst hok
    obtain ⟨_, _, f3, _⟩ := fetchQuizzes_ok now docs fetched hf
    have hfresh : ∀ x ∈ docs.map (fun d => d.id),
        x ∉ ["hardcoded-1", "hardcoded-2", "hardcoded-3"] := by
      intro x hx hb
      obtain ⟨d, hd, rfl⟩ := List.mem_map.mp hx
      have h20 : d.id.length = 20 := by
        have := hsa d hd
        simp only [storeAssigned, Bool.and_eq_true, beq_iff_eq] at this
        exact this.1
      simp only [List.mem_cons, List.mem_singleton, List.not_mem_nil, or_false] at hb
      rcases hb with hb | hb | hb <;> rw [hb] at h20 <;> exact absurd h20 (by decide)
    constructor
    · simp only [setContentItems, List.map_append, f3]
      refine List.nodup_append.mpr ⟨by decide, hn, ?_⟩
      intro x hx hx2
      exact hfresh x hx2 hx
    · intro item hitem
      have hd : (setContentItems (hardcodedContent ++ fetched) st).contentItems.drop 3
          = fetched := rfl
      rw [hd] at hitem
      apply hfresh
      rw [← f3]
      exact List.mem_map.mpr ⟨item, hitem, rfl⟩

/-- Witness for C15: two documents with store-generated identifiers. -/
theorem merged_ids_distinct_witness :
    (onSnapshotNext "t1"
        [⟨"Zk3vQ9pLm2XaB7cD1eFg", some "Fractions", none, none, none, .array [], .absent⟩,
          ⟨"a8Hn4RtYw0UiOp5SdFgJ", none, some "Science", none, none, .array [], .absent⟩]
        State.initial).toOption.map (fun st => st.contentItems.map fun item => item.id)
      = some ["hardcoded-1", "hardcoded-2", "hardcoded-3", "Zk3vQ9pLm2XaB7cD1eFg",
          "a8Hn4RtYw0UiOp5SdFgJ"]
    ∧ (["hardcoded-1", "hardcoded-2", "hardcoded-3", "Zk3vQ9pLm2XaB7cD1eFg",
        "a8Hn4RtYw0UiOp5SdFgJ"] : List String).Nodup := by
  have hids : (onSnapshotNext "t1"
        [⟨"Zk3vQ9pLm2XaB7cD1eFg", some "Fractions", none, none, none, .array [], .absent⟩,
          ⟨"a8Hn4RtYw0UiOp5SdFgJ", none, some "Science", none, none, .array [], .absent⟩]
        State.initial).toOption.map (fun st => st.contentItems.map fun item => item.id)
      = some ["hardcoded-1", "hardcoded-2", "hardcoded-3", "Zk3vQ9pLm2XaB7cD1eFg",
          "a8Hn4RtYw0UiOp5SdFgJ"] := by decide
  refine ⟨hids, ?_⟩
  cases h : onSnapshotNext "t1"
      [⟨"Zk3vQ9pLm2XaB7cD1eFg", some "Fractions", none, none, none, .array [], .absent⟩,
        ⟨"a8Hn4RtYw0UiOp5SdFgJ", none, some "Science", none, none, .array [], .absent⟩]
      State.initial with
  | error e => simp [h, Except.toOption] at hids
  | ok st1 =>
    simp only [h, Except.toOption, Option.map_some', Option.some.injEq] at hids
    rw [← hids]
    exact (merged_ids_distinct "t1" _ State.initial st1 (by decide) (by decide) h).1

/-- `includesStr s t` holds exactly when `t` is a contiguous part of `s`. -/
theorem includesStr_iff (s t : String) : includesStr s t = true ↔ t.data <:+: s.data := by
  simp only [includesStr, List.any_eq_true, List.isPrefixOf_iff_prefix, List.mem_tails]
  rw [List.infix_iff_prefix_suffix]
  constructor
  · rintro ⟨u, hu, hp⟩
    exact ⟨u, hp, hu⟩
  · rintro ⟨u, hp, hu⟩
    exact ⟨u, hu, hp⟩

/-- Every string includes the empty string. -/
theorem includesStr_empty (s : String) : includesStr s "" = true :=
  (includesStr_iff s "").mpr List.nil_infix

/-- A field matches exactly when it is present and its lower-cased value
contains the lower-cased search text. -/
theorem fieldMatches_iff (toLowerCase : String → String) (field : Option String) (q : String) :
    fieldMatches toLowerCase field q = true ↔
      ∃ t, field = some t ∧ (toLowerCase q).data <:+: (toLowerCase t).data := by
  cases field with
  | none => simp [fieldMatches]
  | some s => simp [fieldMatches, includesStr_iff]

/-- C14 (filter and search): the filtered list is the input list filtered, in
its order, by a test that holds exactly for the items whose kind is the
selected category (or the category is `all`) and whose lower-cased title or
lower-cased subject contains the lower-cased search text; it is a sublist of
the input; and a search text with the same lower-casing gives the same list. -/
theorem filteredContent_spec (toLowerCase : String → String)
    (contentItems : List ContentItem) (c q q2 : String)
    (hq : toLowerCase q2 = toLowerCase q) :
    (∃ keep : ContentItem → Bool,
        (∀ item, keep item = true ↔
          (c = "all" ∨ item.type = c) ∧
            ((∃ t, item.title = some t ∧ (toLowerCase q).data <:+: (toLowerCase t).data)
              ∨ (∃ t, item.subject = some t
                  ∧ (toLowerCase q).data <:+: (toLowerCase t).data)))
        ∧ filteredContent toLowerCase contentItems c q = contentItems.filter keep)
      ∧ List.Sublist (filteredContent toLowerCase contentItems c q) contentItems
      ∧ filteredContent toLowerCase contentItems c q2
          = filteredContent toLowerCase contentItems c q := by
  refine ⟨⟨_, ?_, rfl⟩, List.filter_sublist _, ?_⟩
  · intro item
    simp only [Bool.and_eq_true, Bool.or_eq_true, beq_iff_eq, fieldMatches_iff]
  · simp only [filteredContent, fieldMatches, hq]

/-- Witness for C14: `MATH` and `math` select the same two baseline items. -/
theorem filteredContent_spec_witness :
    filteredContent lowerASCII hardcodedContent "all" "MATH"
      = filteredContent lowerASCII hardcodedContent "all" "math" :=
  (filteredContent_spec lowerASCII hardcodedContent "all" "math" "MATH" (by decide)).2.2

/-- C18 as stated fails: the merged list of the baseline items and one
document that has neither a title nor a subject has four items, which is the
count of the category `all`, but with category `all` and the empty search
text the filtered list holds the three baseline items only. -/
theorem filter_identity_counterexample :
    (onSnapshotNext "t1" [⟨"q1", none, none, none, none, .array [], .absent⟩]
        State.initial).toOption.map
        (fun st => filteredContent lowerASCII st.contentItems "all" "")
      = some hardcodedContent
    ∧ (onSnapshotNext "t1" [⟨"q1", none, none, none, none, .array [], .absent⟩]
        State.initial).toOption.map
        (fun st => ((categories st.contentItems).map fun c => (c.value, c.count)).head?)
      = some (some ("all", 4)) := by
  decide

/-- C18 (amended): for the merged list of the baseline items and the items
mapped from snapshot documents each of which has a title or a subject, with
category `all` and the empty search text the filtered list is the whole merged
list, and its length is the count of the category `all`. -/
theorem filter_identity (toLowerCase : String → String) (now : String)
    (docs : List QuizDoc) (st st1 : State)
    (h0 : toLowerCase "" = "")
    (hd : ∀ d ∈ docs, d.title ≠ none ∨ d.subject ≠ none)
    (hok : onSnapshotNext now docs st = .ok st1) :
    filteredContent toLowerCase st1.contentItems "all" "" = st1.contentItems
      ∧ ((categories st1.contentItems).map fun c => (c.value, c.count)).head?
        = some ("all", (filteredContent toLowerCase st1.contentItems "all" "").length) := by
  simp only [onSnapshotNext] at hok
  cases hf : fetchQuizzes now docs with
  | error e => simp [hf] at hok
  | ok fetched =>
    simp only [hf, Except.ok.injEq] at hok
    subst hok
    obtain ⟨_, _, _, f4⟩ := fetchQuizzes_ok now docs fetched hf
    have hall : filteredContent toLowerCase
        (setContentItems (hardcodedContent ++ fetched) st).contentItems "all" ""
        = (setContentItems (hardcodedContent ++ fetched) st).contentItems := by
      simp only [filteredContent, setContentItems]
      rw [List.filter_eq_self]
      intro item hitem
      rcases List.mem_append.mp hitem with hb | hr
      · simp only [hardcodedContent, List.mem_cons, List.mem_singleton, List.not_mem_nil,
          or_false] at hb
        rcases hb with rfl | rfl | rfl <;>
          simp [fieldMatches, h0, includesStr_empty]
      · obtain ⟨d, hdm, ht, hs⟩ := f4 item hr
        rcases hd d hdm with h | h
        · cases htt : d.title with
          | none => exact absurd htt h
          | some t => simp [ht, htt, fieldMatches, h0, includesStr_empty]
        · cases hss : d.subject with
          | none => exact absurd hss h
          | some t => simp [hs, hss, fieldMatches, h0, includesStr_empty]
    refine ⟨hall, ?_⟩
    rw [hall]
    rfl

/-- Witness for C18: two documents, one with a title only and one with a
subject only. -/
theorem filter_identity_witness :
    (onSnapshotNext "t1"
        [⟨"q1", some "Fractions", none, none, none, .array [], .absent⟩,
          ⟨"q2", none, some "Science", none, none, .array [], .absent⟩]
        State.initial).toOption.map
        (fun st => filteredContent lowerASCII st.contentItems "all" "")
      = (onSnapshotNext "t1"
        [⟨"q1", some "Fractions", none, none, none, .array [], .absent⟩,
          ⟨"q2", none, some "Science", none, none, .array [], .absent⟩]
        State.initial).toOption.map (fun st => st.contentItems) := by
  have hok : (onSnapshotNext "t1"
        [⟨"q1", some "Fractions", none, none, none, .array [], .absent⟩,
          ⟨"q2", none, some "Science", none, none, .array [], .absent⟩]
        State.initial).toOption.isSome = true := by decide
  obtain ⟨st1, h1⟩ := Option.isSome_iff_exists.mp hok
  have h2 : onSnapshotNext "t1"
        [⟨"q1", some "Fractions", none, none, none, .array [], .absent⟩,
          ⟨"q2", none, some "Science", none, none, .array [], .absent⟩]
        State.initial = .ok st1 := by
    cases h : onSnapshotNext "t1"
        [⟨"q1", some "Fractions", none, none, none, .array [], .absent⟩,
          ⟨"q2", none, some "Science", none, none, .array [], .absent⟩]
        State.initial with
    | error e => simp [h, Except.toOption] at h1
    | ok s2 =>
      simp only [h, Except.toOption, Option.some.injEq] at h1
      rw [h1]
  rw [h2]
  simp only [Except.toOption, Option.map_some']
  rw [(filter_identity lowerASCII "t1" _ State.initial st1 (by decide) (by decide) h2).1]

/-- Replaying a history in two parts. -/
theorem replay_append (cur : Option String) (xs ys : List SubscriptionCall) :
    replay cur (xs ++ ys) = (replay cur xs).bind fun c => replay c ys := by
  induction xs generalizing cur with
  | nil => simp [replay]
  | cons x xs ih =>
    cases cur with
    | none =>
      cases x with
      | opened p => simpa [replay] using ih (some p)
      | closed p => simp [replay]
    | some c =>
      cases x with
      | opened p => simp [replay]
      | closed p =>
        by_cases hp : p = c
        · simpa [replay, hp] using ih none
        · simp [replay, hp]

/-- What the cleanup of the quizzes effect does: it closes the subscriptions
that are open and nothing else. -/
theorem runCleanup_spec (m : Machine) (h1 : m.subscriptions = m.cleanup.toList) :
    (runCleanup m).subscriptions = [] ∧ (runCleanup m).cleanup = none
      ∧ (runCleanup m).calls = m.calls ++ m.subscriptions.map .closed
      ∧ (runCleanup m).st = m.st
      ∧ (runCleanup m).lifecycle = m.lifecycle
      ∧ (runCleanup m).authListener = m.authListener := by
  unfold runCleanup
  cases hcl : m.cleanup with
  | none =>
    rw [hcl] at h1
    simp [h1, hcl]
  | some p =>
    rw [hcl] at h1
    simp [h1]

/-- What the quizzes effect does when no subscription is open: it opens the
subscription expected for the `userId` and nothing else. -/
theorem quizzesEffect_spec (appId : String) (m : Machine)
    (hi : m.st.userId ≠ none → m.st.isAuthReady = true) :
    (quizzesEffect appId m).cleanup = expectedSubscription appId m.st.userId
      ∧ (quizzesEffect appId m).subscriptions
          = (expectedSubscription appId m.st.userId).toList ++ m.subscriptions
      ∧ (quizzesEffect appId m).calls
          = m.calls ++ (expectedSubscription appId m.st.userId).toList.map .opened
      ∧ (quizzesEffect appId m).st = m.st
      ∧ (quizzesEffect appId m).lifecycle = m.lifecycle
      ∧ (quizzesEffect appId m).authListener = m.authListener := by
  unfold quizzesEffect expectedSubscription
  cases hu : m.st.userId with
  | none => simp
  | some u =>
    have hr : m.st.isAuthReady = true := hi (by simp [hu])
    by_cases he : u = ""
    · simp [hr, he]
    · simp [hr, he, hu]

/-- Closing the open subscription, if any, and opening the expected one, if
any, obeys the discipline of `replay`. -/
theorem replay_close_open (calls : List SubscriptionCall) (cur next : Option String)
    (h : replay none calls = some cur) :
    replay none (calls ++ cur.toList.map .closed ++ next.toList.map .opened) = some next := by
  rw [List.append_assoc, replay_append, h]
  cases cur <;> cases next <;> simp [replay]

/-- A render while mounted keeps the machine consistent, when the subscription
that is open is the one expected for the `userId` of the state before the
change; its calls are the closing of the open subscription followed by the
opening of the expected one when the `userId` changed, and none otherwise. -/
theorem rerender_spec (appId : String) (before : State) (m : Machine)
    (h1 : m.subscriptions = m.cleanup.toList)
    (h2 : m.cleanup = expectedSubscription appId before.userId)
    (h3 : replay none m.calls = some m.cleanup)
    (hm : m.lifecycle = .mounted)
    (ha : m.authListener = true → m.lifecycle = .mounted)
    (hi : m.st.userId ≠ none → m.st.isAuthReady = true)
    (hib : before.userId ≠ none → before.isAuthReady = true) :
    Consistent appId (rerender appId before m)
      ∧ (rerender appId before m).lifecycle = .mounted
      ∧ (rerender appId before m).calls
          = m.calls ++ (if m.st.userId = before.userId then []
              else m.subscriptions.map .closed
                ++ (rerender appId before m).subscriptions.map .opened) := by
  unfold rerender
  by_cases hdeps : before.isAuthReady = m.st.isAuthReady ∧ before.userId = m.st.userId
  · rw [if_pos hdeps]
    refine ⟨⟨h1, fun _ => hdeps.2 ▸ h2, fun hne => absurd hm hne, h3, ha, hi⟩, hm, ?_⟩
    simp [hdeps.2]
  · rw [if_neg hdeps]
    obtain ⟨c1, c2, c3, c4, c5, c6⟩ := runCleanup_spec m h1
    obtain ⟨q1, q2, q3, q4, q5, q6⟩ :=
      quizzesEffect_spec appId (runCleanup m) (by rw [c4]; exact hi)
    rw [c4] at q1 q2 q3
    rw [c1, List.append_nil] at q2
    rw [c3] at q3
    refine ⟨⟨by rw [q1, q2], fun _ => by rw [q1, q4, c4], ?_, ?_, ?_, ?_⟩,
      by rw [q5, c5]; exact hm, ?_⟩
    · intro hne
      rw [q5, c5] at hne
      exact absurd hm hne
    · rw [q3, q1, h1]
      exact replay_close_open m.calls m.cleanup _ h3
    · intro _
      rw [q5, c5]
      exact hm
    · rw [q4, c4]
      exact hi
    · rw [q3, q2]
      by_cases hu : m.st.userId = before.userId
      · rw [if_pos hu]
        have hb : before.isAuthReady ≠ m.st.isAuthReady := fun h => hdeps ⟨h, hu.symm⟩
        have hnone : m.st.userId = none := by
          by_contra hne
          exact hb ((hib (hu ▸ hne)).trans (hi hne).symm)
        have hsub : m.subscriptions = [] := by
          rw [h1, h2, ← hu, hnone]
          rfl
        rw [hsub, hnone]
        simp [expectedSubscription]
      · rw [if_neg hu, List.append_assoc]

/-- Every transition keeps the machine consistent. -/
theorem step_consistent (appId : String) (m m1 : Machine) (e : Event)
    (hc : Consistent appId m) (hs : step appId m e = some m1) : Consistent appId m1 := by
  obtain ⟨h1, h2, h2n, h3, h4, h5⟩ := hc
  cases e with
  | mount =>
    simp only [step] at hs
    split at hs
    · rename_i hl
      simp only [Option.some.injEq] at hs
      subst hs
      have hcl : m.cleanup = none := h2n (by rw [hl]; decide)
      rw [hcl] at h1 h3
      obtain ⟨q1, q2, q3, q4, q5, q6⟩ :=
        quizzesEffect_spec appId { m with lifecycle := .mounted, authListener := true } h5
      refine ⟨by rw [q1, q2]; simp [h1], fun _ => by rw [q1, q4], ?_, ?_,
        fun _ => by rw [q5], ?_⟩
      · intro hne
        rw [q5] at hne
        exact absurd rfl hne
      · rw [q3, q1]
        have := replay_close_open m.calls none
          (expectedSubscription appId m.st.userId) h3
        simpa using this
      · rw [q4]
        exact h5
    · exact absurd hs (by simp)
  | authStateChanged user =>
    simp only [step] at hs
    split at hs
    · rename_i ha
      simp only [Option.some.injEq] at hs
      subst hs
      have hm := h4 ha
      have hi : (onAuthChange user m.st).userId ≠ none →
          (onAuthChange user m.st).isAuthReady = true := by
        cases user with
        | none => exact fun _ => rfl
        | some u => exact fun _ => rfl
      exact (rerender_spec appId m.st
        { m with
          st := onAuthChange user m.st,
          signIns := if user.isNone then m.signIns + 1 else m.signIns }
        h1 (h2 hm) h3 hm h4 hi h5).1
    · exact absurd hs (by simp)
  | signInSettled error =>
    simp only [step] at hs
    split at hs
    · exact absurd hs (by simp)
    · cases error <;> simp only [Option.some.injEq] at hs <;> subst hs <;>
        exact ⟨h1, h2, h2n, h3, h4, h5⟩
  | snapshot now docs =>
    simp only [step] at hs
    split at hs
    · exact absurd hs (by simp)
    · simp only [onSnapshotNext] at hs
      cases hf : fetchQuizzes now docs with
      | error e =>
        simp only [hf, Option.some.injEq] at hs
        subst hs
        exact ⟨h1, h2, h2n, h3, h4, h5⟩
      | ok fetched =>
        simp only [hf, Option.some.injEq] at hs
        subst hs
        exact ⟨h1, h2, h2n, h3, h4, h5⟩
  | snapshotError error =>
    simp only [step] at hs
    split at hs
    · exact absurd hs (by simp)
    · simp only [Option.some.injEq] at hs
      subst hs
      exact ⟨h1, h2, h2n, h3, h4, h5⟩
  | unmount =>
    simp only [step] at hs
    split at hs
    · simp only [Option.some.injEq] at hs
      subst hs
      obtain ⟨c1, c2, c3, c4, c5, c6⟩ :=
        runCleanup_spec { m with lifecycle := .unmounted, authListener := false } h1
      refine ⟨by rw [c1, c2]; rfl, ?_, fun _ => c2, ?_, ?_, ?_⟩
      · intro hl
        rw [c5] at hl
        exact absurd hl (by simp)
      · rw [c3, c2]
        have := replay_close_open m.calls m.cleanup none h3
        simpa [h1] using this
      · intro ha
        rw [c6] at ha
        exact absurd ha (by simp)
      · rw [c4]
        exact h5
    · exact absurd hs (by simp)

/-- Every machine reached from a consistent one is consistent. -/
theorem run_consistent (appId : String) (es : List Event) (m m1 : Machine)
    (hc : Consistent appId m) (hr : run appId m es = some m1) : Consistent appId m1 := by
  induction es generalizing m with
  | nil =>
    simp only [run, Option.some.injEq] at hr
    subst hr
    exact hc
  | cons e es ih =>
    simp only [run] at hr
    cases hs : step appId m e with
    | none => simp [hs] at hr
    | some m2 =>
      rw [hs] at hr
      exact ih m2 (step_consistent appId m m2 e hc hs) hr

/-- The `userId` cell after one transition: the `uid` of the user carried by a
session-change event, unchanged by every other event. -/
theorem step_userId (appId : String) (m m1 : Machine) (e : Event)
    (hs : step appId m e = some m1) :
    m1.st.userId = identityAfter m.st.userId [e] := by
  cases e with
  | mount =>
    simp only [step] at hs
    split at hs
    · simp only [Option.some.injEq] at hs
      subst hs
      rw [quizzesEffect_st]
      rfl
    · exact absurd hs (by simp)
  | authStateChanged user =>
    simp only [step] at hs
    split at hs
    · simp only [Option.some.injEq] at hs
      subst hs
      rw [rerender_st]
      cases user <;> rfl
    · exact absurd hs (by simp)
  | signInSettled error =>
    simp only [step] at hs
    split at hs
    · exact absurd hs (by simp)
    · cases error <;> simp only [Option.some.injEq] at hs <;> subst hs <;> rfl
  | snapshot now docs =>
    simp only [step] at hs
    split at hs
    · exact absurd hs (by simp)
    · simp only [onSnapshotNext] at hs
      cases hf : fetchQuizzes now docs with
      | error e =>
        simp only [hf, Option.some.injEq] at hs
        subst hs
        rfl
      | ok fetched =>
        simp only [hf, Option.some.injEq] at hs
        subst hs
        rfl
  | snapshotError error =>
    simp only [step] at hs
    split at hs
    · exact absurd hs (by simp)
    · simp only [Option.some.injEq] at hs
      subst hs
      rfl
  | unmount =>
    simp only [step] at hs
    split at hs
    · simp only [Option.some.injEq] at hs
      subst hs
      rw [runCleanup_st]
      rfl
    · exact absurd hs (by simp)

/-- The `userId` cell after a sequence of events is the identity carried by
the last session-change event. -/
theorem run_userId (appId : String) (es : List Event) (m m1 : Machine)
    (hr : run appId m es = some m1) :
    m1.st.userId = identityAfter m.st.userId es := by
  induction es generalizing m with
  | nil =>
    simp only [run, Option.some.injEq] at hr
    subst hr
    rfl
  | cons e es ih =>
    simp only [run] at hr
    cases hs : step appId m e with
    | none => simp [hs] at hr
    | some m2 =>
      rw [hs] at hr
      rw [ih m2 hr, step_userId appId m m2 e hs]
      cases e <;> rfl

/-- C16 (subscription lifecycle): in every state reached from the initial one
by mounts, session-change events, sign-in settlements, snapshots, subscription
errors and unmount, the identity held by the component is the one carried by
the last session-change event; while mounted the open subscriptions are
exactly the one on the path `artifacts/appId/users/u/quizzes` of that identity
`u`, and none when the identity is absent; in the history of subscription
calls every subscription was opened with no other one open; a session-change
event that changes the identity closes the open subscription before it opens
the one of the new identity, and opens none when the identity is lost; and
unmount closes the open subscription, so that none is open while the
component is not mounted. -/
theorem subscription_lifecycle (appId : String) (es : List Event) (m : Machine)
    (hr : run appId Machine.initial es = some m) :
    m.st.userId = identityAfter none es
      ∧ (m.lifecycle = .mounted → m.subscriptions
          = (expectedSubscription appId (identityAfter none es)).toList)
      ∧ (m.lifecycle ≠ .mounted → m.subscriptions = [])
      ∧ (m.st.userId = none → m.subscriptions = [])
      ∧ (∀ u, m.st.userId = some u →
          m.subscriptions.length ≤ 1
            ∧ ∀ p ∈ m.subscriptions, p = "artifacts/" ++ appId ++ "/users/" ++ u ++ "/quizzes")
      ∧ replay none m.calls = some m.subscriptions.head?
      ∧ (∀ (user : Option FirebaseUser) (m1 : Machine),
          step appId m (.authStateChanged user) = some m1 →
            m1.st.userId = user.map (fun u => u.uid)
              ∧ m1.subscriptions
                  = (expectedSubscription appId (user.map fun u => u.uid)).toList
              ∧ m1.calls = m.calls ++
                  (if user.map (fun u => u.uid) = m.st.userId then []
                    else m.subscriptions.map .closed ++ m1.subscriptions.map .opened))
      ∧ (∀ m1 : Machine, step appId m .unmount = some m1 →
          m1.subscriptions = [] ∧ m1.calls = m.calls ++ m.subscriptions.map .closed) := by
  have hinit : Consistent appId Machine.initial :=
    ⟨rfl, fun h => absurd h (by simp [Machine.initial]), fun _ => rfl, rfl,
      fun ha => absurd ha (by simp [Machine.initial]),
      fun h => absurd rfl h⟩
  have hc := run_consistent appId es Machine.initial m hinit hr
  have hu : m.st.userId = identityAfter none es := run_userId appId es Machine.initial m hr
  obtain ⟨h1, h2, h2n, h3, h4, h5⟩ := hc
  have hnone : m.st.userId = none → m.subscriptions = [] := by
    intro hn
    by_cases hm : m.lifecycle = .mounted
    · rw [h1, h2 hm, hn]
      rfl
    · rw [h1, h2n hm]
      rfl
  refine ⟨hu, ?_, ?_, hnone, ?_, ?_, ?_, ?_⟩
  · intro hm
    rw [h1, h2 hm, hu]
  · intro hm
    rw [h1, h2n hm]
    rfl
  · intro u hu1
    by_cases hm : m.lifecycle = .mounted
    · rw [h1, h2 hm, hu1]
      by_cases he : u = "" <;> simp [expectedSubscription, he, quizzesPath]
    · rw [h1, h2n hm]
      simp
  · rw [h3, h1]
    cases m.cleanup <;> rfl
  · intro user m1 hs
    simp only [step] at hs
    split at hs
    · rename_i ha
      simp only [Option.some.injEq] at hs
      have hm := h4 ha
      have hi : (onAuthChange user m.st).userId ≠ none →
          (onAuthChange user m.st).isAuthReady = true := by
        cases user with
        | none => exact fun _ => rfl
        | some u => exact fun _ => rfl
      obtain ⟨⟨r1, r2, _, _, _, _⟩, rl, rc⟩ := rerender_spec appId m.st
        { m with
          st := onAuthChange user m.st,
          signIns := if user.isNone then m.signIns + 1 else m.signIns }
        h1 (h2 hm) h3 hm h4 hi h5
      rw [hs] at r1 r2 rl rc
      have hst : m1.st = onAuthChange user m.st := by
        rw [← hs, rerender_st]
      have hid : m1.st.userId = user.map (fun u => u.uid) := by
        rw [hst]
        cases user <;> rfl
      have hid2 : (onAuthChange user m.st).userId = user.map (fun u => u.uid) := by
        cases user <;> rfl
      refine ⟨hid, ?_, ?_⟩
      · rw [r1, r2 rl, hid]
      · simp only [hid2] at rc
        exact rc
    · exact absurd hs (by simp)
  · intro m1 hs
    simp only [step] at hs
    split at hs
    · simp only [Option.some.injEq] at hs
      obtain ⟨c1, _, c3, _, _, _⟩ :=
        runCleanup_spec { m with lifecycle := .unmounted, authListener := false } h1
      rw [hs] at c1 c3
      exact ⟨c1, c3⟩
    · exact absurd hs (by simp)

/-- Witness for C16: mount, sign-in of `u1`, sign-in of `u2`, then loss of the
identity; each subscription is closed before the next one is opened, and none
is open at the end. -/
theorem subscription_lifecycle_witness :
    ∃ m, run "default-app-id" Machine.initial
        [.mount, .authStateChanged (some ⟨"u1"⟩), .authStateChanged (some ⟨"u2"⟩),
          .authStateChanged none] = some m
      ∧ m.calls = [.opened "artifacts/default-app-id/users/u1/quizzes",
          .closed "artifacts/default-app-id/users/u1/quizzes",
          .opened "artifacts/default-app-id/users/u2/quizzes",
          .closed "artifacts/default-app-id/users/u2/quizzes"]
      ∧ m.st.userId = none
      ∧ m.subscriptions = [] := by
  have hrun : (run "default-app-id" Machine.initial
      [.mount, .authStateChanged (some ⟨"u1"⟩), .authStateChanged (some ⟨"u2"⟩),
        .authStateChanged none]).isSome = true := by decide
  obtain ⟨m, hm⟩ := Option.isSome_iff_exists.mp hrun
  have h := subscription_lifecycle "default-app-id" _ m hm
  refine ⟨m, hm, ?_, h.1, h.2.2.2.1 h.1⟩
  have hc : (run "default-app-id" Machine.initial
      [.mount, .authStateChanged (some ⟨"u1"⟩), .authStateChanged (some ⟨"u2"⟩),
        .authStateChanged none]).map (fun m => m.calls)
      = some [.opened "artifacts/default-app-id/users/u1/quizzes",
          .closed "artifacts/default-app-id/users/u1/quizzes",
          .opened "artifacts/default-app-id/users/u2/quizzes",
          .closed "artifacts/default-app-id/users/u2/quizzes"] := by decide
  rw [hm] at hc
  simpa using hc

end ContentLibrary

end EduQuest
